import Mathlib

/-!
ScreamALSA streaming engine: a shallow embedding of `snd-screamalsa.c`.

The driver state `struct snd_scream_device` becomes a Lean structure and every
driver function becomes a function from the old state (plus the values handed
in by the kernel: socket results, the PCM runtime, the available frame count)
to the new state and the list of kernel calls it made.

Conventions.

* Bytes are natural numbers; a `u8` store is written `% 256`.
* `unsigned int` arithmetic is taken `% 2 ^ 32`; `size_t` / `unsigned long`
  arithmetic is taken `% 2 ^ 64` and `long` arithmetic wraps in two's
  complement at 64 bits (an LP64 kernel, built with wrapping signed overflow).
* A function returns `none` where the C code would leave defined behaviour:
  an out-of-bounds array access, a NULL dereference, a division by zero.
* The build modelled is the default one: `FLEXIBLE_PERIOD` undefined, kernel
  version at least 3.19 with `SNDRV_PCM_FORMAT_DSD_U32_BE` available.
-/

namespace ScreamALSA

/-! ## Constants of the source -/

def STATE_DISCONNECTED : Int := 0
def STATE_CONNECTING : Int := 1
def STATE_CONNECTED : Int := 2

def ch_mask : List Nat := [0, 1, 3, 7, 15, 31, 63, 127, 255]

def SCREAM_PAYLOAD_SIZE : Nat := 1152
def SCREAM_HEADER_SIZE : Nat := 5
def SCREAM_PACKET_SIZE : Nat := SCREAM_HEADER_SIZE + SCREAM_PAYLOAD_SIZE

/-! ## Machine integers -/

/-- Value of an `unsigned int` expression. -/
def u32 (n : Nat) : Nat := n % 2 ^ 32

/-- Value of a `size_t` / `unsigned long` expression. -/
def usize (n : Nat) : Nat := n % 2 ^ 64

/-- Value stored by a `(u8)` cast. -/
def u8 (n : Nat) : Nat := n % 256

/-- Value of an `int` expression (two's complement wrap-around at 32 bits). -/
def s32 (z : Int) : Int := (z + 2 ^ 31) % 2 ^ 32 - 2 ^ 31

/-- Value of a `long` expression (two's complement wrap-around at 64 bits). -/
def s64 (z : Int) : Int := (z + 2 ^ 63) % 2 ^ 64 - 2 ^ 63

/-! ## Kernel values the driver uses but does not define -/

/-- The `errno` numbers the driver names. Their values come from the kernel
headers of the target architecture, so they are a parameter of the model. -/
structure errno_table where
  EINTR : Int
  EAGAIN : Int
  EINVAL : Int
  EPIPE : Int
  EADDRNOTAVAIL : Int
  ENETUNREACH : Int
  ECONNRESET : Int
  ENOBUFS : Int
  ENOTCONN : Int
  ESHUTDOWN : Int
  ETIMEDOUT : Int
  EHOSTUNREACH : Int
  EINPROGRESS : Int
  deriving DecidableEq, Repr

/-- The numbers of the `asm-generic` kernel headers (x86, ARM, RISC-V). -/
def asm_generic : errno_table where
  EINTR := 4
  EAGAIN := 11
  EINVAL := 22
  EPIPE := 32
  EADDRNOTAVAIL := 99
  ENETUNREACH := 101
  ECONNRESET := 104
  ENOBUFS := 105
  ENOTCONN := 107
  ESHUTDOWN := 108
  ETIMEDOUT := 110
  EHOSTUNREACH := 113
  EINPROGRESS := 115

/-- All numbers of the table, in the order of the fields. -/
def errno_table.values (E : errno_table) : List Int :=
  [E.EINTR, E.EAGAIN, E.EINVAL, E.EPIPE, E.EADDRNOTAVAIL, E.ENETUNREACH, E.ECONNRESET,
   E.ENOBUFS, E.ENOTCONN, E.ESHUTDOWN, E.ETIMEDOUT, E.EHOSTUNREACH, E.EINPROGRESS]

/-- What every kernel guarantees of its `errno` numbers: they are positive and
pairwise different (the `case` labels of a `switch` could not repeat). -/
def errno_table.valid (E : errno_table) : Prop :=
  (∀ e ∈ E.values, 0 < e) ∧ E.values.Nodup

instance (E : errno_table) : Decidable E.valid := by
  unfold errno_table.valid; exact inferInstance

/-- The sample formats of `snd_scream_hw.formats`. -/
inductive snd_pcm_format_t where
  | S32_LE
  | DSD_U32_BE
  deriving DecidableEq, Repr

/-- Kernel helper `snd_pcm_format_physical_width`: both formats of the driver
occupy 32 bits per sample. -/
def snd_pcm_format_physical_width : snd_pcm_format_t → Nat
  | .S32_LE => 32
  | .DSD_U32_BE => 32

/-- The TCP socket states `sk->sk_state` the driver tells apart. -/
inductive tcp_state where
  | TCP_ESTABLISHED
  | TCP_SYN_SENT
  | TCP_SYN_RECV
  | other (n : Nat)
  deriving DecidableEq, Repr

/-- Kernel `ktime_set(secs, nsecs)`. -/
def ktime_set (secs nsecs : Nat) : Nat := secs * 1000000000 + nsecs

/-- Return value of the timer callback. -/
inductive hrtimer_restart where
  | HRTIMER_NORESTART
  | HRTIMER_RESTART
  deriving DecidableEq, Repr

/-! ## Kernel calls made by the driver -/

/-- One call into the kernel, recorded in the order the driver makes them.
A socket is named by its handle. -/
inductive Event where
  | schedule_delayed_work (msec : Nat)
  | schedule_work
  | hrtimer_start (ns : Nat)
  | hrtimer_forward_now (ns : Nat)
  | hrtimer_cancel
  | cancel_work_sync
  | cancel_delayed_work_sync
  | snd_pcm_period_elapsed
  | sock_create
  | set_sockopt (sock : Nat)
  | set_sock_timeouts (sock : Nat) (msec : Nat)
  | kernel_connect (sock : Nat)
  | kernel_sock_shutdown (sock : Nat)
  | shutdown_wr (sock : Nat)
  | sock_release (sock : Nat)
  | kernel_sendmsg (sock : Nat) (iov : List Nat) (size : Nat)
  deriving DecidableEq, Repr

/-- Whether the call is a `schedule_delayed_work` of the reconnect task. -/
def Event.is_schedule_delayed_work : Event → Bool
  | .schedule_delayed_work _ => true
  | _ => false

/-- Whether the call is a `kernel_sendmsg`. -/
def Event.is_kernel_sendmsg : Event → Bool
  | .kernel_sendmsg _ _ _ => true
  | _ => false

/-- Whether the call creates a socket. -/
def Event.is_sock_create : Event → Bool
  | .sock_create => true
  | _ => false

/-! ## Driver state -/

/-- The fields of `struct snd_scream_device` the streaming engine reads or
writes. `substream` and `timer_function` record whether the pointer is
non-NULL; `sock` is the socket handle, `none` for NULL. -/
structure snd_scream_device where
  substream : Bool
  sock : Option Nat
  is_tcp : Bool
  timer_function : Bool
  period_time_ns : Nat
  hw_ptr : Nat
  is_running : Bool
  send : Bool
  network_buffer : List Nat
  sample_rate : Nat
  channels : Nat
  format : snd_pcm_format_t
  is_dsd : Bool
  connection_state : Int
  reconnect_attempts : Int
  tx_pending : Int
  deriving DecidableEq, Repr

/-- The fields of `struct snd_pcm_runtime` the driver reads: the buffer size in
frames and the bytes of the circular buffer `dma_area`. -/
structure snd_pcm_runtime where
  buffer_size : Nat
  period_size : Nat
  start_threshold : Nat
  stop_threshold : Nat
  dma_area : List Nat
  deriving DecidableEq, Repr

/-- The negotiated parameters read by `snd_scream_pcm_hw_params`. -/
structure snd_pcm_hw_params where
  rate : Nat
  channels : Nat
  format : snd_pcm_format_t
  buffer_bytes : Nat
  deriving DecidableEq, Repr

/-! ## `snd_scream_pcm_hw_params` -/

/-- Embedding of `snd_scream_pcm_hw_params`. `malloc_ret` is the result of
`snd_pcm_lib_malloc_pages`. The result is the return code and the new device;
`none` when `ch_mask` is indexed out of bounds or `do_div` divides by zero. -/
def snd_scream_pcm_hw_params (dev : snd_scream_device) (params : snd_pcm_hw_params)
    (malloc_ret : Int) : Option (Int × snd_scream_device) :=
  if malloc_ret < 0 then some (malloc_ret, dev) else
  let sample_rate := u32 params.rate
  let channels := u32 params.channels
  let format := params.format
  let is_dsd := decide (format = snd_pcm_format_t.DSD_U32_BE)
  let srt := if is_dsd then sample_rate / 2 else sample_rate
  let b1 := if is_dsd then 1 else 32
  let b0 := u8 (if srt % 44100 ≠ 0 then u32 (0 + srt / 48000) else u32 (128 + srt / 44100))
  let b2 := u8 channels
  match ch_mask[channels]? with
  | none => none
  | some b3 =>
    let nb := ((((dev.network_buffer.set 1 b1).set 0 b0).set 2 b2).set 3 b3).set 4 0
    let frame_bytes := u32 ((snd_pcm_format_physical_width format / 8) * channels)
    let num := SCREAM_PAYLOAD_SIZE * 1000000000 % 2 ^ 64
    let divisor := u32 (sample_rate * frame_bytes)
    if divisor = 0 then none else
    let num := num / divisor
    some (0, { dev with
      sample_rate := sample_rate
      channels := channels
      format := format
      is_dsd := is_dsd
      network_buffer := nb
      period_time_ns := ktime_set 0 (usize num) })

/-- The device right after `kzalloc` and the initialisation of
`alsa_scream_driver_init`. -/
def init_device : snd_scream_device where
  substream := false
  sock := none
  is_tcp := false
  timer_function := true
  period_time_ns := 0
  hw_ptr := 0
  is_running := false
  send := false
  network_buffer := List.replicate SCREAM_PACKET_SIZE 0
  sample_rate := 0
  channels := 0
  format := .S32_LE
  is_dsd := false
  connection_state := STATE_DISCONNECTED
  reconnect_attempts := 0
  tx_pending := 0

/-! ## The packet codec -/

/-- C `memcpy(dst + doff, src + soff, n)` on byte arrays; `none` when a byte
outside `dst` or `src` would be touched. -/
def memcpy (dst : List Nat) (doff : Nat) (src : List Nat) (soff n : Nat) :
    Option (List Nat) :=
  if doff + n ≤ dst.length ∧ soff + n ≤ src.length then
    some (dst.take doff ++ ((src.drop soff).take n ++ dst.drop (doff + n)))
  else none

/-- One round of the loop body of `convert_data` on the 8-byte group that
starts at offset `p` of `buf`, statement by statement. -/
def convert_data_group (buf : List Nat) (p : Nat) : Option (List Nat) := do
  let src1 ← buf[p + 1]?
  let v4 ← buf[p + 4]?
  let buf := buf.set (p + 1) v4
  let src2 ← buf[p + 2]?
  let buf := buf.set (p + 2) src1
  let src1 ← buf[p + 3]?
  let v5 ← buf[p + 5]?
  let buf := buf.set (p + 3) v5
  let buf := buf.set (p + 4) src2
  let v6 ← buf[p + 6]?
  let buf := buf.set (p + 5) v6
  let buf := buf.set (p + 6) src1
  pure buf

/-- Embedding of `convert_data(src, frames)` where `src` points at offset `p`
of `buf`: the loop runs `frames` times and moves on by 8 bytes each time. -/
def convert_data (buf : List Nat) (p : Nat) : Nat → Option (List Nat)
  | 0 => some buf
  | frames + 1 =>
    match convert_data_group buf p with
    | none => none
    | some buf1 => convert_data buf1 (p + 8) frames

/-- Unsigned `size_t` subtraction `a - b`. -/
def usize_sub (a b : Nat) : Nat := (a + 2 ^ 64 - b % 2 ^ 64) % 2 ^ 64

/-- Embedding of `scream_build_payload_locked`. -/
def scream_build_payload_locked (dev : snd_scream_device) (runtime : snd_pcm_runtime)
    (current_hw_ptr : Nat) : Option snd_scream_device :=
  let buffer_size := usize (runtime.buffer_size * 4 * dev.channels)
  let data := SCREAM_HEADER_SIZE
  let copied :=
    if usize (current_hw_ptr + SCREAM_PAYLOAD_SIZE) > buffer_size then
      let len1 := usize_sub buffer_size current_hw_ptr
      let len2 := usize_sub SCREAM_PAYLOAD_SIZE len1
      match memcpy dev.network_buffer data runtime.dma_area current_hw_ptr len1 with
      | none => none
      | some nb => memcpy nb (data + len1) runtime.dma_area 0 len2
    else
      memcpy dev.network_buffer data runtime.dma_area current_hw_ptr SCREAM_PAYLOAD_SIZE
  match copied with
  | none => none
  | some nb =>
    if dev.is_dsd then
      match convert_data nb data (SCREAM_PAYLOAD_SIZE / 8) with
      | none => none
      | some nb1 => some { dev with network_buffer := nb1 }
    else some { dev with network_buffer := nb }

/-! ## The pacing engine -/

/-- Embedding of `scream_timer_callback`. `rt` is `sub->runtime` and
`hw_avail` the value returned by `snd_pcm_playback_hw_avail(rt)`. -/
def scream_timer_callback (dev : snd_scream_device) (rt : snd_pcm_runtime)
    (hw_avail : Int) : Option (hrtimer_restart × snd_scream_device × List Event) :=
  if !dev.is_running then some (.HRTIMER_NORESTART, dev, []) else
  if !dev.substream then none else
  let avail_fr := if hw_avail < 0 then 0 else hw_avail
  let locked : Option snd_scream_device :=
    if s64 (avail_fr * 4 * dev.channels) ≥ SCREAM_PAYLOAD_SIZE then
      let buf_bytes := usize (rt.buffer_size * 4 * dev.channels)
      match scream_build_payload_locked dev rt dev.hw_ptr with
      | none => none
      | some dev1 =>
        if buf_bytes = 0 then none else
        some { dev1 with
          send := true
          hw_ptr := usize (dev1.hw_ptr + SCREAM_PAYLOAD_SIZE) % buf_bytes }
    else some { dev with send := false }
  match locked with
  | none => none
  | some dev2 =>
    if dev2.tx_pending = 0 then
      some (.HRTIMER_RESTART, { dev2 with tx_pending := 1 },
        [.schedule_work, .hrtimer_forward_now dev2.period_time_ns])
    else
      some (.HRTIMER_RESTART, dev2, [.hrtimer_forward_now dev2.period_time_ns])

/-- Embedding of `snd_scream_pcm_prepare`. -/
def snd_scream_pcm_prepare (dev : snd_scream_device) (rt : snd_pcm_runtime) :
    Int × snd_scream_device × snd_pcm_runtime :=
  (0, { dev with hw_ptr := 0 },
    { rt with start_threshold := rt.period_size, stop_threshold := rt.buffer_size })

/-- Embedding of `snd_scream_pcm_pointer`; `none` for the division by a zero
channel count. -/
def snd_scream_pcm_pointer (dev : snd_scream_device) : Option Nat :=
  if dev.channels = 0 then none else some (dev.hw_ptr / 4 / dev.channels)

/-! ## The connection state machine -/

/-- Embedding of `scream_reconnect_delay_ms_for_err`. -/
def scream_reconnect_delay_ms_for_err (E : errno_table) (err : Int) : Nat :=
  if err = -E.EPIPE ∨ err = -E.ECONNRESET ∨ err = -E.ESHUTDOWN ∨ err = -E.ENOTCONN then 100
  else if err = -E.ETIMEDOUT then 1000
  else if err = -E.ENETUNREACH ∨ err = -E.EHOSTUNREACH ∨ err = -E.EADDRNOTAVAIL then 2000
  else 500

/-- Embedding of `scream_send_built_packet`. `sendmsg_ret` is what
`kernel_sendmsg` returns if it is called; `none` when it would be called on a
NULL socket. -/
def scream_send_built_packet (E : errno_table) (dev : snd_scream_device)
    (sendmsg_ret : Int) : Option (Int × snd_scream_device × List Event) :=
  let iov := dev.network_buffer.take SCREAM_PACKET_SIZE
  if dev.is_tcp then
    if dev.connection_state ≠ STATE_CONNECTED then some (-E.ENOTCONN, dev, [])
    else if !dev.is_running then some (-E.EINTR, dev, [])
    else
      match dev.sock with
      | none => none
      | some sock =>
        let ret := sendmsg_ret
        let sent := Event.kernel_sendmsg sock iov SCREAM_PACKET_SIZE
        if ret < 0 then
          if ret = -E.EAGAIN ∨ ret = -E.ENOBUFS then some (ret, dev, [sent])
          else if ret = -E.EPIPE ∨ ret = -E.ECONNRESET ∨ ret = -E.ESHUTDOWN ∨
              ret = -E.ETIMEDOUT ∨ ret = -E.ENOTCONN ∨
              ret = -E.ENETUNREACH ∨ ret = -E.EHOSTUNREACH ∨ ret = -E.EADDRNOTAVAIL then
            let delay := scream_reconnect_delay_ms_for_err E ret
            if dev.connection_state = STATE_CONNECTED then
              some (ret, { dev with connection_state := STATE_DISCONNECTED },
                [sent, .schedule_delayed_work delay])
            else some (ret, dev, [sent])
          else some (ret, dev, [sent])
        else some (ret, dev, [sent])
  else
    match dev.sock with
    | none => none
    | some sock => some (sendmsg_ret, dev, [.kernel_sendmsg sock iov SCREAM_PACKET_SIZE])

/-- Embedding of `scream_send_last_packet`. `lastbuf` is the static scratch
buffer of the driver, returned with its new contents. -/
def scream_send_last_packet (E : errno_table) (dev : snd_scream_device)
    (lastbuf : List Nat) (sendmsg_ret : Int) :
    Option (Int × snd_scream_device × List Nat × List Event) :=
  match memcpy lastbuf 0 dev.network_buffer 0 SCREAM_HEADER_SIZE with
  | none => none
  | some lb0 =>
    if 4 < lb0.length then
      let lb := lb0.set 4 0x80
      if dev.is_tcp then
        if dev.connection_state ≠ STATE_CONNECTED then some (-E.ENOTCONN, dev, lb, [])
        else
          match dev.sock with
          | none => none
          | some sock =>
            some (sendmsg_ret, dev, lb,
              [.kernel_sendmsg sock (lb.take SCREAM_PACKET_SIZE) SCREAM_PACKET_SIZE])
      else
        match dev.sock with
        | none => none
        | some sock =>
          some (sendmsg_ret, dev, lb,
            [.kernel_sendmsg sock (lb.take SCREAM_HEADER_SIZE) SCREAM_HEADER_SIZE])
    else none

/-- What the kernel hands to one run of `scream_reconnect_work`: the state of
`dev->sock->sk` (`none` for a NULL `sk`), the result of the socket creation
with the handle it stores on success, and the result of `kernel_connect`. -/
structure reconnect_env where
  sk_state : Option tcp_state
  sock_create_ret : Int
  new_sock : Nat
  connect_ret : Int
  deriving DecidableEq, Repr

/-- The `case STATE_DISCONNECTED: default:` block of `scream_reconnect_work`,
with the `retry_long` exit it jumps to. -/
def scream_reconnect_work_disconnected (E : errno_table) (dev : snd_scream_device)
    (env : reconnect_env) : snd_scream_device × List Event :=
  let attempts := s32 (dev.reconnect_attempts + 1)
  let dev := { dev with reconnect_attempts := attempts }
  if attempts > 10 then ({ dev with reconnect_attempts := 0 }, [])
  else
    let closed : snd_scream_device × List Event :=
      match dev.sock with
      | some old => ({ dev with sock := none },
          [.kernel_sock_shutdown old, .sock_release old])
      | none => (dev, [])
    let dev := closed.1
    let evs := closed.2 ++ [Event.sock_create]
    if env.sock_create_ret < 0 then
      ({ dev with connection_state := STATE_DISCONNECTED },
        evs ++ [.schedule_delayed_work 2000])
    else
      let sock := env.new_sock
      let dev := { dev with sock := some sock }
      let evs := evs ++ [.set_sockopt sock, .set_sockopt sock, .kernel_connect sock]
      let ret := env.connect_ret
      if ret = 0 then
        ({ dev with connection_state := STATE_CONNECTED, reconnect_attempts := 0 },
          evs ++ [.set_sock_timeouts sock 5000])
      else if ret = -E.EINPROGRESS then
        ({ dev with connection_state := STATE_CONNECTING },
          evs ++ [.schedule_delayed_work 200])
      else
        ({ dev with sock := none, connection_state := STATE_DISCONNECTED },
          evs ++ [.sock_release sock, .schedule_delayed_work 2000])

/-- Embedding of `scream_reconnect_work`. -/
def scream_reconnect_work (E : errno_table) (dev : snd_scream_device)
    (env : reconnect_env) : snd_scream_device × List Event :=
  if !dev.is_tcp then (dev, [])
  else if dev.connection_state = STATE_CONNECTED then (dev, [])
  else if dev.connection_state = STATE_CONNECTING then
    match dev.sock, env.sk_state with
    | some sock, some st =>
      if st = tcp_state.TCP_ESTABLISHED then
        ({ dev with connection_state := STATE_CONNECTED, reconnect_attempts := 0 },
          [.set_sock_timeouts sock 5000])
      else if st = tcp_state.TCP_SYN_SENT ∨ st = tcp_state.TCP_SYN_RECV then
        (dev, [.schedule_delayed_work 200])
      else
        let r := scream_reconnect_work_disconnected E
          { dev with sock := none, connection_state := STATE_DISCONNECTED } env
        (r.1, [.kernel_sock_shutdown sock, .sock_release sock] ++ r.2)
    | _, _ =>
      ({ dev with connection_state := STATE_DISCONNECTED }, [.schedule_delayed_work 200])
  else scream_reconnect_work_disconnected E dev env

/-- Runs `scream_reconnect_work` once per element of `envs`, each run starting
from the state the previous one left; the result lists the calls of each run. -/
def reconnect_runs (E : errno_table) :
    snd_scream_device → List reconnect_env → snd_scream_device × List (List Event)
  | dev, [] => (dev, [])
  | dev, env :: envs =>
    let r := scream_reconnect_work E dev env
    let rest := reconnect_runs E r.1 envs
    (rest.1, r.2 :: rest.2)

/-! ## The transmission worker and the stream operations -/

/-- Embedding of `scream_tx_work`. -/
def scream_tx_work (E : errno_table) (dev : snd_scream_device) (sendmsg_ret : Int) :
    Option (snd_scream_device × List Event) :=
  if !dev.substream then some ({ dev with tx_pending := 0 }, [])
  else
    let elapsed := [Event.snd_pcm_period_elapsed]
    if dev.send ∧ (!dev.is_tcp ∨ dev.connection_state = STATE_CONNECTED) then
      match scream_send_built_packet E dev sendmsg_ret with
      | none => none
      | some (_, dev1, evs) => some ({ dev1 with tx_pending := 0 }, elapsed ++ evs)
    else some ({ dev with tx_pending := 0 }, elapsed)

/-- Embedding of `scream_cleanup_resources`. -/
def scream_cleanup_resources (dev : snd_scream_device) : snd_scream_device × List Event :=
  let dev := if dev.is_running then { dev with is_running := false } else dev
  let evs := (if dev.timer_function then [Event.hrtimer_cancel] else []) ++
    [Event.cancel_work_sync, Event.cancel_delayed_work_sync]
  let closed : snd_scream_device × List Event :=
    match dev.sock with
    | some sock =>
      ({ dev with sock := none },
        (if dev.is_tcp ∧ dev.connection_state = STATE_CONNECTED
          then [Event.shutdown_wr sock] else []) ++ [Event.sock_release sock])
    | none => (dev, [])
  ({ closed.1 with
      connection_state := STATE_DISCONNECTED
      reconnect_attempts := 0
      tx_pending := 0
      is_running := false
      substream := false },
    evs ++ closed.2)

/-- Embedding of `snd_scream_pcm_close`; the result carries the return code,
the device, the static `lastbuf` and the calls made. -/
def snd_scream_pcm_close (E : errno_table) (dev : snd_scream_device)
    (lastbuf : List Nat) (sendmsg_ret : Int) :
    Option (Int × snd_scream_device × List Nat × List Event) :=
  let stopped : snd_scream_device × List Event :=
    if dev.is_running then
      ({ dev with is_running := false, tx_pending := 0 },
        [.hrtimer_cancel, .cancel_work_sync])
    else (dev, [])
  let dev := stopped.1
  let last : Option (snd_scream_device × List Nat × List Event) :=
    if dev.sock.isSome ∧ dev.connection_state = STATE_CONNECTED then
      match scream_send_last_packet E dev lastbuf sendmsg_ret with
      | none => none
      | some (_, dev1, lb, evs) => some (dev1, lb, evs)
    else some (dev, lastbuf, [])
  match last with
  | none => none
  | some (dev1, lb, evs) =>
    let r := scream_cleanup_resources dev1
    some (0, r.1, lb, stopped.2 ++ evs ++ r.2)

/-- The `cmd` argument of the trigger callback. -/
inductive trigger_cmd where
  | SNDRV_PCM_TRIGGER_START
  | SNDRV_PCM_TRIGGER_STOP
  | other (n : Int)
  deriving DecidableEq, Repr

/-- Embedding of `snd_scream_pcm_trigger`. -/
def snd_scream_pcm_trigger (E : errno_table) (dev : snd_scream_device)
    (cmd : trigger_cmd) : Int × snd_scream_device × List Event :=
  match cmd with
  | .SNDRV_PCM_TRIGGER_START =>
    if !dev.is_running then
      (0, { dev with tx_pending := 0, is_running := true },
        [.hrtimer_start dev.period_time_ns])
    else (0, dev, [])
  | .SNDRV_PCM_TRIGGER_STOP =>
    if dev.is_running then (0, { dev with is_running := false }, [])
    else (0, dev, [])
  | .other _ => (-E.EINVAL, dev, [])

/-- Embedding of `snd_scream_pcm_open`. `protocol_tcp` is
`sysfs_streq(protocol_str, "tcp")`, `constraint_ret` the result of
`snd_pcm_hw_constraint_integer`, `sock_create_ret` and `new_sock` the result of
the socket creation. -/
def snd_scream_pcm_open (dev : snd_scream_device) (protocol_tcp : Bool)
    (constraint_ret sock_create_ret : Int) (new_sock : Nat) :
    Int × snd_scream_device × List Event :=
  let dev := { dev with substream := true }
  if constraint_ret < 0 then (constraint_ret, dev, [])
  else
    let dev := { dev with is_tcp := protocol_tcp }
    if sock_create_ret < 0 then (sock_create_ret, dev, [.sock_create])
    else
      let dev := { dev with sock := some new_sock }
      if dev.is_tcp then
        let dev := { dev with connection_state := STATE_DISCONNECTED }
        (0, dev, [.sock_create, .set_sockopt new_sock, .set_sockopt new_sock] ++
          (if dev.connection_state = STATE_DISCONNECTED
            then [Event.schedule_delayed_work 100] else []))
      else
        (0, { dev with connection_state := STATE_CONNECTED }, [.sock_create])

/-- Runs the timer callback once per element of `ticks` (the runtime and the
available frame count seen by that tick), each from the state the previous tick
left; `none` as soon as one tick is undefined. -/
def timer_ticks : snd_scream_device → List (snd_pcm_runtime × Int) → Option snd_scream_device
  | dev, [] => some dev
  | dev, (rt, hw_avail) :: ticks =>
    match scream_timer_callback dev rt hw_avail with
    | none => none
    | some (_, dev1, _) => timer_ticks dev1 ticks


/-- Length in bytes of the circular buffer, as `scream_build_payload_locked`
and `scream_timer_callback` both compute it. -/
def buf_bytes (dev : snd_scream_device) (rt : snd_pcm_runtime) : Nat :=
  usize (rt.buffer_size * 4 * dev.channels)

/-- The circular buffer of `rt` lies in memory: its `buf_bytes` bytes and one
payload quantum are inside `dma_area`, and `dma_area` together with the packet
buffer fits a 64-bit address space. -/
def buffer_in_memory (dev : snd_scream_device) (rt : snd_pcm_runtime) : Prop :=
  buf_bytes dev rt ≤ rt.dma_area.length ∧ SCREAM_PAYLOAD_SIZE ≤ rt.dma_area.length ∧
    rt.dma_area.length + SCREAM_PACKET_SIZE ≤ 2 ^ 64

/-- A connection-oriented device that is running and Connected, with an open
socket and an empty packet buffer. -/
def connected_tcp_device : snd_scream_device :=
  { init_device with
    substream := true
    sock := some 1
    is_tcp := true
    is_running := true
    connection_state := STATE_CONNECTED }

/-- A connection-oriented device in state Disconnected with no socket and an
attempt counter of 0. -/
def disconnected_tcp_device : snd_scream_device :=
  { init_device with substream := true, is_tcp := true }

/-- An immediate connect failure: the socket is created and `kernel_connect`
returns `-ECONNREFUSED` (`-111`). -/
def refused_env : reconnect_env := ⟨none, 0, 7, -111⟩

/-- A connectionless device in the middle of playback: running, with a packet
marked ready by the last tick and the transmission worker scheduled. -/
def ready_udp_device : snd_scream_device :=
  { init_device with
    substream := true
    sock := some 1
    is_tcp := false
    is_running := true
    send := true
    sample_rate := 48000
    channels := 2
    period_time_ns := 3000000
    connection_state := STATE_CONNECTED
    tx_pending := 1 }

/-! ## Reference definitions in the words of the specification -/

/-- The reordering of one 8-byte group in the words of the specification:
`(s0,s1,s2,s3,s4,s5,s6,s7)` becomes `(s0,s4,s1,s5,s2,s6,s3,s7)`, so the byte at
index `k` of the new group is the byte at index `spec_group_source k` of the old
one. -/
def spec_group_source (k : Nat) : Nat := [0, 4, 1, 5, 2, 6, 3, 7].getD k k

/-- Index in the old buffer of the byte found at index `j` after the `n` groups
that start at offset `p` were reordered, each inside itself; bytes outside the
groups stay where they are. -/
def spec_convert_source (p n j : Nat) : Nat :=
  if p ≤ j ∧ j < p + 8 * n then p + 8 * ((j - p) / 8) + spec_group_source ((j - p) % 8)
  else j

/-- The payload window in the words of the specification: 1152 bytes, the
`i`-th being the byte of the circular buffer of length `L` at index
`(cursor + i) mod L`. -/
def spec_payload_window (dma : List Nat) (cursor L : Nat) : List Nat :=
  (List.range SCREAM_PAYLOAD_SIZE).map fun i => dma.getD ((cursor + i) % L) 0

/-- The rate class of header byte 0 in the words of the specification, as an
unbounded natural number. -/
def spec_rate_class (rate : Nat) : Nat :=
  if rate % 44100 = 0 then 128 + rate / 44100 else rate / 48000

/-- The rate fed to the rate class: halved for the DSD format. -/
def spec_effective_rate (format : snd_pcm_format_t) (rate : Nat) : Nat :=
  if format = .DSD_U32_BE then rate / 2 else rate


set_option maxRecDepth 8000

/-! ## Header encoding (`snd_scream_pcm_hw_params`) -/

theorem rate_class_byte (srt : Nat) (h : srt ≤ 1536000) :
    u8 (if srt % 44100 ≠ 0 then u32 (0 + srt / 48000) else u32 (128 + srt / 44100)) =
      spec_rate_class srt := by
  unfold u8 u32 spec_rate_class
  split_ifs <;> omega

theorem rate_class_byte_simp (srt : Nat) (h : srt ≤ 1536000) :
    u8 (if srt % 44100 = 0 then u32 (128 + srt / 44100) else u32 (srt / 48000)) =
      spec_rate_class srt := by
  unfold u8 u32 spec_rate_class
  split_ifs <;> omega

theorem rate_class_lt (srt : Nat) (h : srt ≤ 1536000) : spec_rate_class srt < 256 := by
  unfold spec_rate_class
  split_ifs <;> omega

theorem period_value (rate channels : Nat) (format : snd_pcm_format_t)
    (hr1 : 44100 ≤ rate) (hr2 : rate ≤ 1536000) (hc1 : 1 ≤ channels) (hc2 : channels ≤ 8) :
    u32 (rate * u32 (snd_pcm_format_physical_width format / 8 * channels)) =
      rate * (4 * channels) ∧ rate * (4 * channels) ≠ 0 ∧
    ktime_set 0 (usize (SCREAM_PAYLOAD_SIZE * 1000000000 % 2 ^ 64 / (rate * (4 * channels)))) =
      1152000000000 / (rate * (4 * channels)) := by
  have hw : snd_pcm_format_physical_width format / 8 = 4 := by cases format <;> rfl
  have h1 : rate * (4 * channels) ≤ 1536000 * 32 := by nlinarith
  have h2 : 44100 * 4 ≤ rate * (4 * channels) := by nlinarith
  have h3 : 1152000000000 / (rate * (4 * channels)) ≤ 1152000000000 :=
    Nat.div_le_self _ _
  have h4 : u32 (4 * channels) = 4 * channels := by unfold u32; omega
  refine ⟨?_, by omega, ?_⟩
  · rw [hw, h4]
    generalize rate * (4 * channels) = d at *
    unfold u32; omega
  · generalize rate * (4 * channels) = d at *
    unfold ktime_set usize SCREAM_PAYLOAD_SIZE
    norm_num
    omega

theorem hw_params_defined (dev : snd_scream_device) (params : snd_pcm_hw_params)
    (malloc_ret : Int) (hm : 0 ≤ malloc_ret)
    (hr1 : 44100 ≤ params.rate) (hr2 : params.rate ≤ 1536000)
    (hc1 : 1 ≤ params.channels) (hc2 : params.channels ≤ 8) :
    ch_mask[params.channels]? = some (2 ^ params.channels - 1) ∧
    snd_scream_pcm_hw_params dev params malloc_ret = some (0, { dev with
      sample_rate := params.rate
      channels := params.channels
      format := params.format
      is_dsd := decide (params.format = .DSD_U32_BE)
      network_buffer := ((((dev.network_buffer.set 1
          (if params.format = .DSD_U32_BE then 1 else 32)).set 0
          (spec_rate_class (spec_effective_rate params.format params.rate))).set 2
          params.channels).set 3 (2 ^ params.channels - 1)).set 4 0
      period_time_ns := 1152000000000 / (params.rate * (4 * params.channels)) }) := by
  obtain ⟨rate, channels, format, bb⟩ := params
  simp only at hr1 hr2 hc1 hc2 ⊢
  have hm' : ¬ malloc_ret < 0 := by omega
  have hrate : u32 rate = rate := by unfold u32; omega
  have hchan : u32 channels = channels := by unfold u32; omega
  have hchan8 : u8 channels = channels := by unfold u8; omega
  obtain ⟨hp1, hp2, hp3⟩ := period_value rate channels format hr1 hr2 hc1 hc2
  have hb0 : ∀ srt, srt ≤ 1536000 → u8 (if srt % 44100 ≠ 0 then u32 (0 + srt / 48000)
      else u32 (128 + srt / 44100)) = spec_rate_class srt := rate_class_byte
  have hb3 : ch_mask[channels]? = some (2 ^ channels - 1) := by
    have hch : channels = 1 ∨ channels = 2 ∨ channels = 3 ∨ channels = 4 ∨ channels = 5 ∨
      channels = 6 ∨ channels = 7 ∨ channels = 8 := by omega
    rcases hch with h | h | h | h | h | h | h | h <;> subst h <;> rfl
  refine ⟨hb3, ?_⟩
  unfold snd_scream_pcm_hw_params
  simp only [hm', if_false, hrate, hchan, hchan8, hb3, hp1, hp2, hp3]
  cases format
  · simp [spec_effective_rate, hb0 rate hr2, rate_class_byte_simp rate hr2]
  · simp [spec_effective_rate, hb0 (rate / 2) (by omega),
      rate_class_byte_simp (rate / 2) (by omega)]

theorem header_take (l : List Nat) (b0 b1 b2 b3 b4 : Nat) (h : 5 ≤ l.length) :
    (((((l.set 1 b1).set 0 b0).set 2 b2).set 3 b3).set 4 b4).take 5 = [b0, b1, b2, b3, b4] := by
  match l, h with
  | _ :: _ :: _ :: _ :: _ :: _, _ => simp

theorem take_getElem? (l : List Nat) (n i : Nat) (h : i < n) : l[i]? = (l.take n)[i]? := by
  simp [List.getElem?_take, h]

/-- C1: for every sample rate in 44100..1536000 (and a channel count the
function accepts), `snd_scream_pcm_hw_params` succeeds and header byte 0 is the
untruncated number `128 + r / 44100` when `r` is a multiple of 44100 and
`r / 48000` otherwise, `r` being the rate for PCM and half the rate for DSD;
PCM 44100 gives 129, PCM 48000 gives 1 and DSD 88200 gives 129. -/
theorem hw_params_header_byte0 (dev : snd_scream_device) (params : snd_pcm_hw_params)
    (malloc_ret : Int) (hlen : dev.network_buffer.length = SCREAM_PACKET_SIZE)
    (hm : 0 ≤ malloc_ret) (hr1 : 44100 ≤ params.rate) (hr2 : params.rate ≤ 1536000)
    (hc1 : 1 ≤ params.channels) (hc2 : params.channels ≤ 8) :
    ∃ dev1, snd_scream_pcm_hw_params dev params malloc_ret = some (0, dev1) ∧
      dev1.network_buffer[0]? =
        some (spec_rate_class (spec_effective_rate params.format params.rate)) ∧
      spec_rate_class (spec_effective_rate params.format params.rate) < 256 ∧
      (params.format = .S32_LE → params.rate = 44100 → dev1.network_buffer[0]? = some 129) ∧
      (params.format = .S32_LE → params.rate = 48000 → dev1.network_buffer[0]? = some 1) ∧
      (params.format = .DSD_U32_BE → params.rate = 88200 →
        dev1.network_buffer[0]? = some 129) := by
  obtain ⟨-, hdef⟩ := hw_params_defined dev params malloc_ret hm hr1 hr2 hc1 hc2
  refine ⟨_, hdef, ?_⟩
  have hlen5 : 5 ≤ dev.network_buffer.length := by rw [hlen]; decide
  have h0 : ∀ b0 b1 b2 b3 b4 : Nat,
      (((((dev.network_buffer.set 1 b1).set 0 b0).set 2 b2).set 3 b3).set 4 b4)[0]? =
        some b0 := by
    intro b0 b1 b2 b3 b4
    rw [take_getElem? _ 5 0 (by decide), header_take _ _ _ _ _ _ hlen5]; rfl
  have hlt : spec_rate_class (spec_effective_rate params.format params.rate) < 256 := by
    apply rate_class_lt
    unfold spec_effective_rate
    split_ifs <;> omega
  refine ⟨h0 _ _ _ _ _, hlt, ?_, ?_, ?_⟩
  · intro hf hr
    simp only [h0, hf, hr]; rfl
  · intro hf hr
    simp only [h0, hf, hr]; rfl
  · intro hf hr
    simp only [h0, hf, hr]; rfl

theorem hw_params_header_byte0_witness :
    ∃ dev1, snd_scream_pcm_hw_params init_device ⟨88200, 2, .DSD_U32_BE, 4608⟩ 0 =
        some (0, dev1) ∧
      dev1.network_buffer[0]? = some 129 :=
  (hw_params_header_byte0 init_device ⟨88200, 2, .DSD_U32_BE, 4608⟩ 0
    (by simp [init_device]) (by decide) (by decide) (by decide) (by decide) (by decide)).imp
    fun _ h => ⟨h.1, h.2.2.2.2.2 rfl rfl⟩

/-- C2: for every channel count `c` in 2..8 (and a supported sample rate),
`snd_scream_pcm_hw_params` sets header byte 1 to 1 for DSD and 32 for PCM,
byte 2 to `c`, byte 3 to `ch_mask[c] = 2 ^ c - 1`, the number whose set bits are
exactly the `c` low-order ones, and byte 4 to 0; for rate 48000, 2 channels and
PCM the five header bytes are `[1, 32, 2, 3, 0]`. -/
theorem hw_params_header_bytes (dev : snd_scream_device) (params : snd_pcm_hw_params)
    (malloc_ret : Int) (hlen : dev.network_buffer.length = SCREAM_PACKET_SIZE)
    (hm : 0 ≤ malloc_ret) (hr1 : 44100 ≤ params.rate) (hr2 : params.rate ≤ 1536000)
    (hc1 : 2 ≤ params.channels) (hc2 : params.channels ≤ 8) :
    ∃ dev1, snd_scream_pcm_hw_params dev params malloc_ret = some (0, dev1) ∧
      dev1.network_buffer[1]? = some (if params.format = .DSD_U32_BE then 1 else 32) ∧
      dev1.network_buffer[2]? = some params.channels ∧
      dev1.network_buffer[3]? = ch_mask[params.channels]? ∧
      ch_mask[params.channels]? = some (2 ^ params.channels - 1) ∧
      (∀ i, (2 ^ params.channels - 1).testBit i = decide (i < params.channels)) ∧
      dev1.network_buffer[4]? = some 0 ∧
      (params.rate = 48000 → params.channels = 2 → params.format = .S32_LE →
        dev1.network_buffer.take 5 = [1, 32, 2, 3, 0]) := by
  obtain ⟨hmask, hdef⟩ :=
    hw_params_defined dev params malloc_ret hm hr1 hr2 (by omega) hc2
  refine ⟨_, hdef, ?_⟩
  have hlen5 : 5 ≤ dev.network_buffer.length := by rw [hlen]; decide
  have htake := header_take dev.network_buffer
    (spec_rate_class (spec_effective_rate params.format params.rate))
    (if params.format = .DSD_U32_BE then 1 else 32) params.channels
    (2 ^ params.channels - 1) 0 hlen5
  refine ⟨?_, ?_, ?_, hmask, fun i => Nat.testBit_two_pow_sub_one _ _, ?_, ?_⟩
  · rw [take_getElem? _ 5 1 (by decide), htake]; rfl
  · rw [take_getElem? _ 5 2 (by decide), htake]; rfl
  · rw [take_getElem? _ 5 3 (by decide), htake, hmask]; rfl
  · rw [take_getElem? _ 5 4 (by decide), htake]; rfl
  · intro hr hc hf
    rw [htake, hr, hc, hf]; rfl

theorem hw_params_header_bytes_witness :
    ∃ dev1, snd_scream_pcm_hw_params init_device ⟨48000, 2, .S32_LE, 4608⟩ 0 =
        some (0, dev1) ∧
      dev1.network_buffer.take 5 = [1, 32, 2, 3, 0] :=
  (hw_params_header_bytes init_device ⟨48000, 2, .S32_LE, 4608⟩ 0
    (by simp [init_device]) (by decide) (by decide) (by decide) (by decide) (by decide)).imp
    fun _ h => ⟨h.1, h.2.2.2.2.2.2.2 rfl rfl rfl⟩

/-! ## Payload window (`scream_build_payload_locked`) -/

theorem memcpy_eq_some (dst : List Nat) (doff : Nat) (src : List Nat) (soff n : Nat)
    (h1 : doff + n ≤ dst.length) (h2 : soff + n ≤ src.length) :
    memcpy dst doff src soff n =
      some (dst.take doff ++ ((src.drop soff).take n ++ dst.drop (doff + n))) := by
  unfold memcpy
  rw [if_pos ⟨h1, h2⟩]

theorem memcpy_getElem? (dst : List Nat) (doff : Nat) (src : List Nat) (soff n j : Nat)
    (h1 : doff + n ≤ dst.length) (h2 : soff + n ≤ src.length) :
    (dst.take doff ++ ((src.drop soff).take n ++ dst.drop (doff + n)))[j]? =
      if doff ≤ j ∧ j < doff + n then src[soff + (j - doff)]? else dst[j]? := by
  simp only [List.getElem?_append, List.length_take, List.length_drop, List.getElem?_take,
    List.getElem?_drop]
  have : min doff dst.length = doff := by omega
  have : min n (src.length - soff) = n := by omega
  split_ifs <;> first | omega | (congr 1; omega) | rfl

theorem memcpy_length (dst : List Nat) (doff : Nat) (src : List Nat) (soff n : Nat)
    (h1 : doff + n ≤ dst.length) (h2 : soff + n ≤ src.length) :
    (dst.take doff ++ ((src.drop soff).take n ++ dst.drop (doff + n))).length =
      dst.length := by
  simp only [List.length_append, List.length_take, List.length_drop]
  omega

theorem spec_payload_window_getElem? (dma : List Nat) (cursor L i : Nat)
    (hL : 0 < L) (hdma : L ≤ dma.length) :
    (spec_payload_window dma cursor L)[i]? =
      if i < SCREAM_PAYLOAD_SIZE then dma[(cursor + i) % L]? else none := by
  unfold spec_payload_window
  rw [List.getElem?_map]
  split_ifs with h
  · have hlt : (cursor + i) % L < dma.length := lt_of_lt_of_le (Nat.mod_lt _ hL) hdma
    rw [List.getElem?_range h]
    simp [List.getD_eq_getElem?_getD, List.getElem?_eq_getElem hlt]
  · rw [List.getElem?_eq_none (by simpa using h)]
    rfl

theorem convert_data_group_some (buf : List Nat) (p : Nat) (h : p + 6 < buf.length) :
    ∃ buf1, convert_data_group buf p = some buf1 ∧ buf1.length = buf.length := by
  unfold convert_data_group
  have g : ∀ (l : List Nat) (k : Nat), l.length = buf.length → k ≤ 6 →
      l[p + k]? = some (l.getD (p + k) 0) := by
    intro l k hl hk
    have hlt : p + k < l.length := by omega
    simp [List.getD_eq_getElem?_getD, List.getElem?_eq_getElem hlt]
  simp only [Option.bind_eq_bind, Option.pure_def, bind, pure]
  rw [g buf 1 rfl (by omega), Option.bind, g buf 4 rfl (by omega)]
  simp only [Option.bind]
  rw [g _ 2 (by simp) (by omega)]
  simp only []
  rw [g _ 3 (by simp) (by omega)]
  simp only []
  rw [g _ 5 (by simp) (by omega)]
  simp only []
  rw [g _ 6 (by simp) (by omega)]
  exact ⟨_, rfl, by simp⟩

theorem convert_data_some (frames : Nat) :
    ∀ (buf : List Nat) (p : Nat), p + 8 * frames ≤ buf.length + 1 →
      ∃ buf1, convert_data buf p frames = some buf1 ∧ buf1.length = buf.length := by
  induction frames with
  | zero => intro buf p _; exact ⟨buf, rfl, rfl⟩
  | succ n ih =>
    intro buf p h
    obtain ⟨b1, hb1, hl1⟩ := convert_data_group_some buf p (by omega)
    obtain ⟨b2, hb2, hl2⟩ := ih b1 (p + 8) (by omega)
    refine ⟨b2, ?_, by omega⟩
    unfold convert_data
    rw [hb1]
    exact hb2

/-- What the two `memcpy` branches of `scream_build_payload_locked` leave in the
packet buffer, and how the function continues from there. -/
theorem build_payload_copy (dev : snd_scream_device) (rt : snd_pcm_runtime) (cursor : Nat)
    (hlen : dev.network_buffer.length = SCREAM_PACKET_SIZE)
    (hdma : buf_bytes dev rt ≤ rt.dma_area.length)
    (hdma2 : SCREAM_PAYLOAD_SIZE ≤ rt.dma_area.length)
    (hmem : rt.dma_area.length + SCREAM_PACKET_SIZE ≤ 2 ^ 64)
    (hc : cursor < buf_bytes dev rt) :
    ∃ nb, nb.length = SCREAM_PACKET_SIZE ∧
      (SCREAM_PAYLOAD_SIZE ≤ buf_bytes dev rt →
        ∀ j, nb[j]? = if j < SCREAM_HEADER_SIZE then dev.network_buffer[j]?
          else if j < SCREAM_PACKET_SIZE then
            rt.dma_area[(cursor + (j - SCREAM_HEADER_SIZE)) % buf_bytes dev rt]?
          else none) ∧
      scream_build_payload_locked dev rt cursor =
        if dev.is_dsd then
          match convert_data nb SCREAM_HEADER_SIZE (SCREAM_PAYLOAD_SIZE / 8) with
          | none => none
          | some nb1 => some { dev with network_buffer := nb1 }
        else some { dev with network_buffer := nb } := by
  unfold scream_build_payload_locked
  have hLdef : usize (rt.buffer_size * 4 * dev.channels) = buf_bytes dev rt := rfl
  rw [hLdef]
  generalize buf_bytes dev rt = L at *
  simp only [SCREAM_PACKET_SIZE, SCREAM_PAYLOAD_SIZE, SCREAM_HEADER_SIZE] at *
  have hcur : usize (cursor + 1152) = cursor + 1152 := by unfold usize; omega
  rw [hcur]
  by_cases hwrap : cursor + 1152 > L
  · have hlen1 : usize_sub L cursor = L - cursor := by unfold usize_sub; omega
    have hlen2 : usize_sub 1152 (L - cursor) = 1152 - (L - cursor) := by
      unfold usize_sub; omega
    simp only [hwrap, if_true, hlen1, hlen2]
    have a1 : 5 + (L - cursor) ≤ dev.network_buffer.length := by omega
    have a2 : cursor + (L - cursor) ≤ rt.dma_area.length := by omega
    rw [memcpy_eq_some _ _ _ _ _ a1 a2]
    simp only []
    have hl1 := memcpy_length dev.network_buffer 5 rt.dma_area cursor (L - cursor) a1 a2
    generalize hnb1 : dev.network_buffer.take 5 ++
      ((rt.dma_area.drop cursor).take (L - cursor) ++
        dev.network_buffer.drop (5 + (L - cursor))) = nb1 at *
    have b1 : 5 + (L - cursor) + (1152 - (L - cursor)) ≤ nb1.length := by omega
    have b2 : 0 + (1152 - (L - cursor)) ≤ rt.dma_area.length := by omega
    rw [memcpy_eq_some _ _ _ _ _ b1 b2]
    refine ⟨_, ?_, ?_, rfl⟩
    · rw [memcpy_length _ _ _ _ _ b1 b2]; omega
    · intro hL j
      rw [memcpy_getElem? _ _ _ _ _ _ b1 b2, ← hnb1, memcpy_getElem? _ _ _ _ _ _ a1 a2]
      by_cases hj5 : j < 5
      · have : ¬ (5 + (L - cursor) ≤ j ∧ j < 5 + (L - cursor) + (1152 - (L - cursor))) := by
          omega
        have : ¬ (5 ≤ j ∧ j < 5 + (L - cursor)) := by omega
        simp only [*, if_true, if_false]
      · by_cases hj : j < 1157
        · by_cases hseg : j < 5 + (L - cursor)
          · have e1 : ¬ (5 + (L - cursor) ≤ j ∧
                j < 5 + (L - cursor) + (1152 - (L - cursor))) := by omega
            have e2 : 5 ≤ j ∧ j < 5 + (L - cursor) := by omega
            have e3 : (cursor + (j - 5)) % L = cursor + (j - 5) :=
              Nat.mod_eq_of_lt (by omega)
            simp only [hj5, hj, e1, e2, e3, and_self, if_true, if_false]
          · have e1 : 5 + (L - cursor) ≤ j ∧
                j < 5 + (L - cursor) + (1152 - (L - cursor)) := by omega
            have e3 : (cursor + (j - 5)) % L = 0 + (j - (5 + (L - cursor))) := by
              rw [Nat.mod_eq_sub_mod (by omega), Nat.mod_eq_of_lt (by omega)]
              omega
            simp only [hj5, hj, e1, e3, and_self, if_true, if_false]
        · have e1 : ¬ (5 + (L - cursor) ≤ j ∧
              j < 5 + (L - cursor) + (1152 - (L - cursor))) := by omega
          have e2 : ¬ (5 ≤ j ∧ j < 5 + (L - cursor)) := by omega
          simp only [hj5, hj, e1, e2, if_false]
          apply List.getElem?_eq_none
          omega
  · simp only [hwrap, if_false]
    have a1 : 5 + 1152 ≤ dev.network_buffer.length := by omega
    have a2 : cursor + 1152 ≤ rt.dma_area.length := by omega
    rw [memcpy_eq_some _ _ _ _ _ a1 a2]
    refine ⟨_, ?_, ?_, rfl⟩
    · rw [memcpy_length _ _ _ _ _ a1 a2]; omega
    · intro hL j
      rw [memcpy_getElem? _ _ _ _ _ _ a1 a2]
      by_cases hj5 : j < 5
      · have : ¬ (5 ≤ j ∧ j < 5 + 1152) := by omega
        simp only [*, if_true, if_false]
      · by_cases hj : j < 1157
        · have e2 : 5 ≤ j ∧ j < 5 + 1152 := by omega
          have e3 : (cursor + (j - 5)) % L = cursor + (j - 5) :=
            Nat.mod_eq_of_lt (by omega)
          simp only [hj5, hj, e2, e3, and_self, if_true, if_false]
        · have e2 : ¬ (5 ≤ j ∧ j < 5 + 1152) := by omega
          rw [if_neg e2, if_neg hj5, if_neg hj]
          apply List.getElem?_eq_none
          omega

/-- Bytes of the packet buffer after `scream_build_payload_locked` on a device
that is not DSD. -/
theorem build_payload_bytes (dev : snd_scream_device) (rt : snd_pcm_runtime) (cursor : Nat)
    (hlen : dev.network_buffer.length = SCREAM_PACKET_SIZE)
    (hdsd : dev.is_dsd = false)
    (hL : SCREAM_PAYLOAD_SIZE ≤ buf_bytes dev rt)
    (hdma : buf_bytes dev rt ≤ rt.dma_area.length)
    (hmem : rt.dma_area.length + SCREAM_PACKET_SIZE ≤ 2 ^ 64)
    (hc : cursor < buf_bytes dev rt) :
    ∃ nb, scream_build_payload_locked dev rt cursor = some { dev with network_buffer := nb } ∧
      nb.length = SCREAM_PACKET_SIZE ∧
      ∀ j, nb[j]? = if j < SCREAM_HEADER_SIZE then dev.network_buffer[j]?
        else if j < SCREAM_PACKET_SIZE then
          rt.dma_area[(cursor + (j - SCREAM_HEADER_SIZE)) % buf_bytes dev rt]?
        else none := by
  obtain ⟨nb, h1, h2, h3⟩ :=
    build_payload_copy dev rt cursor hlen hdma (le_trans hL hdma) hmem hc
  refine ⟨nb, ?_, h1, h2 hL⟩
  rw [h3, hdsd]
  rfl

/-- The function returns whenever the buffer lies in memory, DSD or not, and
changes the packet buffer only, keeping its length. -/
theorem build_payload_defined (dev : snd_scream_device) (rt : snd_pcm_runtime) (cursor : Nat)
    (hlen : dev.network_buffer.length = SCREAM_PACKET_SIZE)
    (hdma : buf_bytes dev rt ≤ rt.dma_area.length)
    (hdma2 : SCREAM_PAYLOAD_SIZE ≤ rt.dma_area.length)
    (hmem : rt.dma_area.length + SCREAM_PACKET_SIZE ≤ 2 ^ 64)
    (hc : cursor < buf_bytes dev rt) :
    ∃ nb, scream_build_payload_locked dev rt cursor = some { dev with network_buffer := nb } ∧
      nb.length = SCREAM_PACKET_SIZE := by
  obtain ⟨nb, h1, -, h3⟩ := build_payload_copy dev rt cursor hlen hdma hdma2 hmem hc
  rw [h3]
  cases hd : dev.is_dsd
  · exact ⟨nb, rfl, h1⟩
  · obtain ⟨nb1, hc1, hl1⟩ := convert_data_some (SCREAM_PAYLOAD_SIZE / 8) nb
      SCREAM_HEADER_SIZE (by rw [h1]; decide)
    refine ⟨nb1, ?_, by rw [hl1, h1]⟩
    simp only [if_true, hc1]

/-- Whatever the buffer, a call that returns changed the packet buffer only. -/
theorem build_payload_fields (dev dev1 : snd_scream_device) (rt : snd_pcm_runtime)
    (cursor : Nat) (h : scream_build_payload_locked dev rt cursor = some dev1) :
    dev1 = { dev with network_buffer := dev1.network_buffer } := by
  unfold scream_build_payload_locked at h
  cases hd : dev.is_dsd
  · rw [hd] at h
    simp only [Bool.false_eq_true, if_false] at h
    split at h
    · exact absurd h (by simp)
    · rw [← Option.some.inj h]
  · rw [hd] at h
    simp only [if_true] at h
    split at h
    · exact absurd h (by simp)
    · split at h
      · exact absurd h (by simp)
      · rw [← Option.some.inj h]

/-- C3: on a device that is not DSD, for every circular buffer of length
`L >= 1152` (held by `dma_area`, inside a 64-bit address space) and every
cursor below `L`, `scream_build_payload_locked` returns, changes nothing but the
packet buffer, leaves its 5 header bytes as they were and writes a payload of
exactly 1152 bytes whose `i`-th byte is the buffer byte at `(cursor + i) mod L`;
the payload is the window of the specification whichever copy branch ran. -/
theorem build_payload_window (dev : snd_scream_device) (rt : snd_pcm_runtime) (cursor : Nat)
    (hlen : dev.network_buffer.length = SCREAM_PACKET_SIZE)
    (hdsd : dev.is_dsd = false)
    (hL : SCREAM_PAYLOAD_SIZE ≤ buf_bytes dev rt)
    (hdma : buf_bytes dev rt ≤ rt.dma_area.length)
    (hmem : rt.dma_area.length + SCREAM_PACKET_SIZE ≤ 2 ^ 64)
    (hc : cursor < buf_bytes dev rt) :
    ∃ nb, scream_build_payload_locked dev rt cursor = some { dev with network_buffer := nb } ∧
      nb.take SCREAM_HEADER_SIZE = dev.network_buffer.take SCREAM_HEADER_SIZE ∧
      (nb.drop SCREAM_HEADER_SIZE).length = SCREAM_PAYLOAD_SIZE ∧
      (∀ i < SCREAM_PAYLOAD_SIZE,
        (cursor + i) % buf_bytes dev rt < rt.dma_area.length ∧
        (nb.drop SCREAM_HEADER_SIZE)[i]? = rt.dma_area[(cursor + i) % buf_bytes dev rt]?) ∧
      nb.drop SCREAM_HEADER_SIZE = spec_payload_window rt.dma_area cursor (buf_bytes dev rt) := by
  obtain ⟨nb, hrun, hnblen, hbytes⟩ :=
    build_payload_bytes dev rt cursor hlen hdsd hL hdma hmem hc
  have hLpos : 0 < buf_bytes dev rt := lt_of_le_of_lt (Nat.zero_le _) hc
  have hdrop : ∀ i, (nb.drop SCREAM_HEADER_SIZE)[i]? =
      if i < SCREAM_PAYLOAD_SIZE then rt.dma_area[(cursor + i) % buf_bytes dev rt]?
      else none := by
    intro i
    rw [List.getElem?_drop, hbytes]
    simp only [SCREAM_PACKET_SIZE, SCREAM_PAYLOAD_SIZE, SCREAM_HEADER_SIZE]
    have h5 : ¬ 5 + i < 5 := by omega
    have hsub : 5 + i - 5 = i := by omega
    rw [if_neg h5, hsub]
    by_cases hi : i < 1152
    · rw [if_pos hi, if_pos (by omega)]
    · rw [if_neg hi, if_neg (by omega)]
  refine ⟨nb, hrun, ?_, ?_, ?_, ?_⟩
  · apply List.ext_getElem?
    intro j
    rw [List.getElem?_take, List.getElem?_take, hbytes]
    split_ifs <;> rfl
  · rw [List.length_drop, hnblen]; rfl
  · intro i hi
    refine ⟨lt_of_lt_of_le (Nat.mod_lt _ hLpos) hdma, ?_⟩
    rw [hdrop, if_pos hi]
  · apply List.ext_getElem?
    intro i
    rw [hdrop, spec_payload_window_getElem? _ _ _ _ hLpos hdma]

theorem build_payload_window_witness :
    ∃ nb, scream_build_payload_locked { init_device with channels := 2 }
        ⟨288, 144, 0, 0, List.replicate 2304 7⟩ 2000 =
          some { init_device with channels := 2, network_buffer := nb } ∧
      nb.drop SCREAM_HEADER_SIZE = spec_payload_window (List.replicate 2304 7) 2000 2304 :=
  (build_payload_window { init_device with channels := 2 }
    ⟨288, 144, 0, 0, List.replicate 2304 7⟩ 2000
    (by simp [init_device]) rfl (by decide)
    (by simp only [List.length_replicate]; decide)
    (by simp only [List.length_replicate]; decide)
    (by decide)).imp
    fun _ h => ⟨h.1, h.2.2.2.2⟩

/-! ## Pacing engine (`scream_timer_callback`) -/

theorem s64_of_nonneg (z : Int) (h0 : 0 ≤ z) (h1 : z < 2 ^ 63) : s64 z = z := by
  unfold s64; omega

/-- A tick of a stopped device does nothing. -/
theorem timer_tick_stopped (dev : snd_scream_device) (rt : snd_pcm_runtime) (hw_avail : Int)
    (hrun : dev.is_running = false) :
    scream_timer_callback dev rt hw_avail = some (.HRTIMER_NORESTART, dev, []) := by
  unfold scream_timer_callback
  simp [hrun]

/-- A tick with enough data, given what the payload build returned. -/
theorem timer_tick_send_eq (dev dev1 : snd_scream_device) (rt : snd_pcm_runtime)
    (hw_avail : Int) (hrun : dev.is_running = true) (hsub : dev.substream = true)
    (hcond : s64 ((if hw_avail < 0 then 0 else hw_avail) * 4 * dev.channels) ≥
      SCREAM_PAYLOAD_SIZE)
    (hbuild : scream_build_payload_locked dev rt dev.hw_ptr = some dev1)
    (hL : buf_bytes dev rt ≠ 0) :
    scream_timer_callback dev rt hw_avail = some (.HRTIMER_RESTART,
      { dev1 with
        send := true
        hw_ptr := usize (dev1.hw_ptr + SCREAM_PAYLOAD_SIZE) % buf_bytes dev rt
        tx_pending := if dev1.tx_pending = 0 then 1 else dev1.tx_pending },
      if dev1.tx_pending = 0 then
        [.schedule_work, .hrtimer_forward_now dev1.period_time_ns]
      else [.hrtimer_forward_now dev1.period_time_ns]) := by
  unfold scream_timer_callback
  unfold buf_bytes at hL
  simp only [hrun, hsub, hbuild, hcond, hL, Bool.not_true, Bool.false_eq_true, if_false,
    if_true]
  unfold buf_bytes
  split_ifs with h
  · simp [h]
  · rfl

/-- A tick without enough data. -/
theorem timer_tick_idle_eq (dev : snd_scream_device) (rt : snd_pcm_runtime)
    (hw_avail : Int) (hrun : dev.is_running = true) (hsub : dev.substream = true)
    (hcond : ¬ s64 ((if hw_avail < 0 then 0 else hw_avail) * 4 * dev.channels) ≥
      SCREAM_PAYLOAD_SIZE) :
    scream_timer_callback dev rt hw_avail = some (.HRTIMER_RESTART,
      { dev with
        send := false
        tx_pending := if dev.tx_pending = 0 then 1 else dev.tx_pending },
      if dev.tx_pending = 0 then
        [.schedule_work, .hrtimer_forward_now dev.period_time_ns]
      else [.hrtimer_forward_now dev.period_time_ns]) := by
  unfold scream_timer_callback
  simp only [hrun, hsub, hcond, Bool.not_true, Bool.false_eq_true, if_false]
  split_ifs with h
  · simp [h]
  · rfl

/-- A tick without a substream, or whose payload build is undefined, is
undefined. -/
theorem timer_tick_none (dev : snd_scream_device) (rt : snd_pcm_runtime) (hw_avail : Int)
    (hrun : dev.is_running = true)
    (h : dev.substream = false ∨
      (s64 ((if hw_avail < 0 then 0 else hw_avail) * 4 * dev.channels) ≥ SCREAM_PAYLOAD_SIZE ∧
        scream_build_payload_locked dev rt dev.hw_ptr = none)) :
    scream_timer_callback dev rt hw_avail = none := by
  unfold scream_timer_callback
  rcases h with h | ⟨h1, h2⟩
  · simp [hrun, h]
  · cases hs : dev.substream
    · simp [hrun]
    · simp only [hrun, h1, h2, Bool.not_true, Bool.false_eq_true, if_false, if_true]

/-- One tick keeps the cursor below the buffer length and does not touch the
channel count, whenever it returns. -/
theorem timer_tick_hw_ptr (dev dev1 : snd_scream_device) (rt : snd_pcm_runtime)
    (hw_avail : Int) (r : hrtimer_restart) (evs : List Event)
    (h : scream_timer_callback dev rt hw_avail = some (r, dev1, evs))
    (hL : 0 < buf_bytes dev rt) (hc : dev.hw_ptr < buf_bytes dev rt) :
    dev1.hw_ptr < buf_bytes dev rt ∧ dev1.channels = dev.channels := by
  cases hrun : dev.is_running
  · rw [timer_tick_stopped dev rt hw_avail hrun] at h
    simp only [Option.some.injEq, Prod.mk.injEq] at h
    rw [← h.2.1]
    exact ⟨hc, rfl⟩
  · cases hsub : dev.substream
    · rw [timer_tick_none dev rt hw_avail hrun (Or.inl hsub)] at h
      exact absurd h (by simp)
    · by_cases hcond : s64 ((if hw_avail < 0 then 0 else hw_avail) * 4 * dev.channels) ≥
          SCREAM_PAYLOAD_SIZE
      · cases hb : scream_build_payload_locked dev rt dev.hw_ptr with
        | none =>
          rw [timer_tick_none dev rt hw_avail hrun (Or.inr ⟨hcond, hb⟩)] at h
          exact absurd h (by simp)
        | some d =>
          rw [timer_tick_send_eq dev d rt hw_avail hrun hsub hcond hb (by omega)] at h
          simp only [Option.some.injEq, Prod.mk.injEq] at h
          rw [← h.2.1]
          refine ⟨Nat.mod_lt _ hL, ?_⟩
          rw [build_payload_fields dev d rt dev.hw_ptr hb]
      · rw [timer_tick_idle_eq dev rt hw_avail hrun hsub hcond] at h
        simp only [Option.some.injEq, Prod.mk.injEq] at h
        rw [← h.2.1]
        exact ⟨hc, rfl⟩

/-- One tick returns whenever the buffer lies in memory, and keeps what the
next tick needs. -/
theorem timer_tick_defined (dev : snd_scream_device) (rt : snd_pcm_runtime) (hw_avail : Int)
    (hlen : dev.network_buffer.length = SCREAM_PACKET_SIZE)
    (hsub : dev.is_running = true → dev.substream = true)
    (hmem : buffer_in_memory dev rt)
    (hc : dev.hw_ptr < buf_bytes dev rt) :
    ∃ r dev1 evs, scream_timer_callback dev rt hw_avail = some (r, dev1, evs) ∧
      dev1.network_buffer.length = SCREAM_PACKET_SIZE ∧
      dev1.is_running = dev.is_running ∧ dev1.substream = dev.substream := by
  obtain ⟨hdma, hdma2, h64⟩ := hmem
  cases hrun : dev.is_running
  · exact ⟨_, _, _, timer_tick_stopped dev rt hw_avail hrun, hlen, hrun, rfl⟩
  · have hs := hsub hrun
    by_cases hcond : s64 ((if hw_avail < 0 then 0 else hw_avail) * 4 * dev.channels) ≥
        SCREAM_PAYLOAD_SIZE
    · obtain ⟨nb, hb, hnb⟩ := build_payload_defined dev rt dev.hw_ptr hlen hdma hdma2 h64 hc
      exact ⟨_, _, _, timer_tick_send_eq dev _ rt hw_avail hrun hs hcond hb (by omega),
        hnb, hrun, rfl⟩
    · exact ⟨_, _, _, timer_tick_idle_eq dev rt hw_avail hrun hs hcond, hlen, hrun, rfl⟩

/-- C4: on a running device whose buffer lies in memory and whose cursor is
inside it, a tick of `scream_timer_callback` with `a` available frames (clamped
to 0 when negative, the product `a * 4 * channels` within the range of `long`)
returns, and it marks a packet ready and moves the cursor to
`(cursor + 1152) mod buffer length` exactly when `a * 4 * channels >= 1152`;
exactly 1152 bytes are enough, the packet built is the one at the old cursor,
and otherwise `send` is false and cursor and packet buffer are unchanged. -/
theorem timer_tick_send_iff (dev : snd_scream_device) (rt : snd_pcm_runtime)
    (hw_avail : Int) (hrun : dev.is_running = true) (hsub : dev.substream = true)
    (hlen : dev.network_buffer.length = SCREAM_PACKET_SIZE)
    (hmem : buffer_in_memory dev rt)
    (hc : dev.hw_ptr < buf_bytes dev rt)
    (hav : max hw_avail 0 * 4 * dev.channels < 2 ^ 63) :
    ∃ dev1 evs, scream_timer_callback dev rt hw_avail =
        some (.HRTIMER_RESTART, dev1, evs) ∧
      ((dev1.send = true ∧
          dev1.hw_ptr = (dev.hw_ptr + SCREAM_PAYLOAD_SIZE) % buf_bytes dev rt) ↔
        max hw_avail 0 * 4 * dev.channels ≥ SCREAM_PAYLOAD_SIZE) ∧
      (max hw_avail 0 * 4 * dev.channels = SCREAM_PAYLOAD_SIZE → dev1.send = true) ∧
      (max hw_avail 0 * 4 * dev.channels ≥ SCREAM_PAYLOAD_SIZE →
        scream_build_payload_locked dev rt dev.hw_ptr =
          some { dev with network_buffer := dev1.network_buffer }) ∧
      (max hw_avail 0 * 4 * dev.channels < SCREAM_PAYLOAD_SIZE →
        dev1.send = false ∧ dev1.hw_ptr = dev.hw_ptr ∧
          dev1.network_buffer = dev.network_buffer) := by
  have hclamp : (if hw_avail < 0 then 0 else hw_avail) = max hw_avail 0 := by
    split_ifs with h
    · rw [max_eq_right (le_of_lt h)]
    · rw [max_eq_left (not_lt.mp h)]
  have hnn : 0 ≤ max hw_avail 0 * 4 * dev.channels :=
    mul_nonneg (mul_nonneg (le_max_right _ _) (by norm_num)) (Int.ofNat_nonneg _)
  have hs64 : s64 ((if hw_avail < 0 then 0 else hw_avail) * 4 * dev.channels) =
      max hw_avail 0 * 4 * dev.channels := by
    rw [hclamp]; exact s64_of_nonneg _ hnn hav
  obtain ⟨hdma, hdma2, h64⟩ := hmem
  by_cases hcond : max hw_avail 0 * 4 * dev.channels ≥ SCREAM_PAYLOAD_SIZE
  · obtain ⟨nb, hb, -⟩ := build_payload_defined dev rt dev.hw_ptr hlen hdma hdma2 h64 hc
    have hptr : usize (dev.hw_ptr + SCREAM_PAYLOAD_SIZE) = dev.hw_ptr + SCREAM_PAYLOAD_SIZE := by
      unfold usize
      apply Nat.mod_eq_of_lt
      simp only [SCREAM_PACKET_SIZE, SCREAM_PAYLOAD_SIZE, SCREAM_HEADER_SIZE] at *
      omega
    refine ⟨_, _, timer_tick_send_eq dev _ rt hw_avail hrun hsub (by rw [hs64]; exact hcond)
      hb (by omega), ?_, ?_, ?_, ?_⟩
    · simp only [hptr, true_and]
      exact ⟨fun _ => hcond, fun _ => trivial⟩
    · intro _; rfl
    · intro _; exact hb
    · intro hlt; exact absurd hcond (not_le.mpr hlt)
  · refine ⟨_, _, timer_tick_idle_eq dev rt hw_avail hrun hsub (by rw [hs64]; exact hcond),
      ?_, ?_, ?_, ?_⟩
    · simp only [Bool.false_eq_true, false_and, false_iff]
      exact hcond
    · intro he; exact absurd (le_of_eq he.symm) hcond
    · intro hge; exact absurd hge hcond
    · intro _; exact ⟨rfl, rfl, rfl⟩

theorem timer_tick_send_iff_witness :
    ∃ dev1 evs, scream_timer_callback
        { init_device with channels := 2, is_running := true, substream := true, hw_ptr := 1152 }
        ⟨288, 144, 0, 0, List.replicate 2304 7⟩ 144 = some (.HRTIMER_RESTART, dev1, evs) ∧
      dev1.send = true ∧ dev1.hw_ptr = 0 :=
  (timer_tick_send_iff
    { init_device with channels := 2, is_running := true, substream := true, hw_ptr := 1152 }
    ⟨288, 144, 0, 0, List.replicate 2304 7⟩ 144 rfl rfl (by simp [init_device])
    ⟨by simp only [List.length_replicate]; decide,
      by simp only [List.length_replicate]; decide,
      by simp only [List.length_replicate]; decide⟩
    (by decide) (by decide)).imp
    fun _ h => h.imp fun _ h => ⟨h.1, h.2.1.mpr (by decide)⟩

/-- The cursor invariant along a run of ticks that returns. -/
theorem timer_ticks_hw_ptr (L : Nat) (hL : 0 < L) (ticks : List (snd_pcm_runtime × Int)) :
    ∀ dev dev1 : snd_scream_device, (∀ t ∈ ticks, buf_bytes dev t.1 = L) →
      dev.hw_ptr < L → timer_ticks dev ticks = some dev1 → dev1.hw_ptr < L := by
  induction ticks with
  | nil =>
    intro dev dev1 _ hc h
    simp only [timer_ticks, Option.some.injEq] at h
    rw [← h]; exact hc
  | cons t ticks ih =>
    intro dev dev1 hfix hc h
    obtain ⟨rt, a⟩ := t
    have hLt : buf_bytes dev rt = L := hfix (rt, a) (List.mem_cons_self _ _)
    simp only [timer_ticks] at h
    cases hstep : scream_timer_callback dev rt a with
    | none => rw [hstep] at h; exact absurd h (by simp)
    | some res =>
      obtain ⟨r, d, evs⟩ := res
      rw [hstep] at h
      obtain ⟨hd, hch⟩ := timer_tick_hw_ptr dev d rt a r evs hstep (by omega) (by omega)
      refine ih d dev1 ?_ (by omega) h
      intro t ht
      have := hfix t (List.mem_cons_of_mem _ ht)
      unfold buf_bytes at this ⊢
      rw [hch]; exact this

/-- A run of ticks returns whenever every buffer it sees lies in memory. -/
theorem timer_ticks_defined (L : Nat) (ticks : List (snd_pcm_runtime × Int)) :
    ∀ dev : snd_scream_device, (∀ t ∈ ticks, buf_bytes dev t.1 = L) →
      (∀ t ∈ ticks, buffer_in_memory dev t.1) →
      dev.network_buffer.length = SCREAM_PACKET_SIZE →
      (dev.is_running = true → dev.substream = true) →
      dev.hw_ptr < L → ∃ dev1, timer_ticks dev ticks = some dev1 := by
  induction ticks with
  | nil => intro dev _ _ _ _ _; exact ⟨dev, rfl⟩
  | cons t ticks ih =>
    intro dev hfix hmem hlen hsub hc
    obtain ⟨rt, a⟩ := t
    have hLt : buf_bytes dev rt = L := hfix (rt, a) (List.mem_cons_self _ _)
    have hm : buffer_in_memory dev rt := hmem (rt, a) (List.mem_cons_self _ _)
    obtain ⟨r, d, evs, hstep, hdlen, hdrun, hdsub⟩ :=
      timer_tick_defined dev rt a hlen hsub hm (by omega)
    obtain ⟨hd, hch⟩ := timer_tick_hw_ptr dev d rt a r evs hstep (by omega) (by omega)
    have hbb : ∀ rt1 : snd_pcm_runtime, buf_bytes d rt1 = buf_bytes dev rt1 := by
      intro rt1; unfold buf_bytes; rw [hch]
    obtain ⟨dev1, h1⟩ := ih d
      (fun t ht => by rw [hbb]; exact hfix t (List.mem_cons_of_mem _ ht))
      (fun t ht => by
        have := hmem t (List.mem_cons_of_mem _ ht)
        unfold buffer_in_memory at this ⊢
        rw [hbb]; exact this)
      hdlen (by rw [hdrun, hdsub]; exact hsub) (by omega)
    exact ⟨dev1, by simp only [timer_ticks, hstep]; exact h1⟩

/-- C5: for a fixed buffer length `L > 0` the read cursor `hw_ptr` is below `L`
after `snd_scream_pcm_prepare` and after any sequence of
`scream_timer_callback` ticks with any available-frame values: every run that
returns ends with `hw_ptr < L`, and the run does return whenever the buffers
lie in memory. -/
theorem hw_ptr_lt_buffer_length (dev : snd_scream_device) (rt0 : snd_pcm_runtime)
    (ticks : List (snd_pcm_runtime × Int)) (L : Nat) (hL : 0 < L)
    (hfix : ∀ t ∈ ticks, buf_bytes dev t.1 = L) :
    (snd_scream_pcm_prepare dev rt0).2.1.hw_ptr < L ∧
    (∀ dev1, timer_ticks (snd_scream_pcm_prepare dev rt0).2.1 ticks = some dev1 →
      dev1.hw_ptr < L) ∧
    (dev.network_buffer.length = SCREAM_PACKET_SIZE →
      (dev.is_running = true → dev.substream = true) →
      (∀ t ∈ ticks, buffer_in_memory dev t.1) →
      ∃ dev1, timer_ticks (snd_scream_pcm_prepare dev rt0).2.1 ticks = some dev1 ∧
        dev1.hw_ptr < L) := by
  have hprep : (snd_scream_pcm_prepare dev rt0).2.1 = { dev with hw_ptr := 0 } := rfl
  have hfix0 : ∀ t ∈ ticks, buf_bytes { dev with hw_ptr := 0 } t.1 = L := hfix
  rw [hprep]
  refine ⟨hL, fun dev1 h => timer_ticks_hw_ptr L hL ticks _ dev1 hfix0 hL h, ?_⟩
  intro hlen hsub hmem
  obtain ⟨dev1, h1⟩ := timer_ticks_defined L ticks { dev with hw_ptr := 0 } hfix0 hmem
    hlen hsub hL
  exact ⟨dev1, h1, timer_ticks_hw_ptr L hL ticks _ dev1 hfix0 hL h1⟩

theorem hw_ptr_lt_buffer_length_witness :
    ∃ dev1, timer_ticks (snd_scream_pcm_prepare
        { init_device with channels := 2, is_running := true, substream := true, hw_ptr := 9 }
        ⟨288, 144, 0, 0, []⟩).2.1
        [(⟨288, 144, 0, 0, List.replicate 2304 7⟩, 144), (⟨288, 144, 0, 0, List.replicate 2304 8⟩, 0),
          (⟨288, 144, 0, 0, List.replicate 2304 9⟩, 288)] = some dev1 ∧
      dev1.hw_ptr < 2304 :=
  (hw_ptr_lt_buffer_length
    { init_device with channels := 2, is_running := true, substream := true, hw_ptr := 9 }
    ⟨288, 144, 0, 0, []⟩
    [(⟨288, 144, 0, 0, List.replicate 2304 7⟩, 144), (⟨288, 144, 0, 0, List.replicate 2304 8⟩, 0),
      (⟨288, 144, 0, 0, List.replicate 2304 9⟩, 288)] 2304 (by decide)
    (by simp [buf_bytes, usize])).2.2 (by simp [init_device]) (fun _ => rfl)
    (by simp [buffer_in_memory, buf_bytes, usize, SCREAM_PAYLOAD_SIZE, SCREAM_PACKET_SIZE,
      SCREAM_HEADER_SIZE])

/-! ## Send failures (`scream_reconnect_delay_ms_for_err`, `scream_send_built_packet`) -/

/-- The numbers of a valid table are pairwise different and positive, spelled
out for the ones the send path compares. -/
theorem errno_valid_facts (E : errno_table) (hE : E.valid) :
    (0 < E.EINTR ∧ 0 < E.EAGAIN ∧ 0 < E.EPIPE ∧ 0 < E.EADDRNOTAVAIL ∧ 0 < E.ENETUNREACH ∧
      0 < E.ECONNRESET ∧ 0 < E.ENOBUFS ∧ 0 < E.ENOTCONN ∧ 0 < E.ESHUTDOWN ∧
      0 < E.ETIMEDOUT ∧ 0 < E.EHOSTUNREACH ∧ 0 < E.EINPROGRESS) ∧
    E.values.Pairwise (fun a b => a ≠ b) := by
  obtain ⟨hpos, hnd⟩ := hE
  refine ⟨?_, hnd⟩
  simp only [errno_table.values, List.mem_cons, List.mem_singleton, forall_eq_or_imp,
    forall_eq] at hpos
  simp only [List.mem_nil_iff, false_imp_iff, implies_true, and_true] at hpos
  tauto

theorem asm_generic_valid : asm_generic.valid := by
  simp [errno_table.valid, errno_table.values, asm_generic]

/-- C7: with the kernel's `errno` numbers pairwise different,
`scream_reconnect_delay_ms_for_err` returns exactly 100 for `-EPIPE`,
`-ECONNRESET`, `-ESHUTDOWN` and `-ENOTCONN`, exactly 1000 for `-ETIMEDOUT`,
exactly 2000 for `-ENETUNREACH`, `-EHOSTUNREACH` and `-EADDRNOTAVAIL`, and
exactly 500 for every other integer. -/
theorem reconnect_delay_values (E : errno_table) (hE : E.valid) (err : Int) :
    (err = -E.EPIPE ∨ err = -E.ECONNRESET ∨ err = -E.ESHUTDOWN ∨ err = -E.ENOTCONN →
      scream_reconnect_delay_ms_for_err E err = 100) ∧
    (err = -E.ETIMEDOUT → scream_reconnect_delay_ms_for_err E err = 1000) ∧
    (err = -E.ENETUNREACH ∨ err = -E.EHOSTUNREACH ∨ err = -E.EADDRNOTAVAIL →
      scream_reconnect_delay_ms_for_err E err = 2000) ∧
    (err ≠ -E.EPIPE → err ≠ -E.ECONNRESET → err ≠ -E.ESHUTDOWN → err ≠ -E.ENOTCONN →
      err ≠ -E.ETIMEDOUT → err ≠ -E.ENETUNREACH → err ≠ -E.EHOSTUNREACH →
      err ≠ -E.EADDRNOTAVAIL → scream_reconnect_delay_ms_for_err E err = 500) := by
  obtain ⟨-, hne⟩ := errno_valid_facts E hE
  have hsym := hne.imp (fun h => Ne.symm h)
  simp only [errno_table.values, List.pairwise_cons, List.mem_cons, List.mem_singleton,
    forall_eq_or_imp, forall_eq] at hne hsym
  unfold scream_reconnect_delay_ms_for_err
  refine ⟨?_, ?_, ?_, ?_⟩
  · intro h; rw [if_pos h]
  · intro h; subst h; simp [hne, hsym]
  · intro h; rcases h with h | h | h <;> subst h <;> simp [hne, hsym]
  · intro h1 h2 h3 h4 h5 h6 h7 h8
    simp [h1, h2, h3, h4, h5, h6, h7, h8]

theorem reconnect_delay_values_witness :
    scream_reconnect_delay_ms_for_err asm_generic (-110) = 1000 ∧
    scream_reconnect_delay_ms_for_err asm_generic (-5) = 500 :=
  ⟨(reconnect_delay_values asm_generic asm_generic_valid (-110)).2.1 rfl,
    (reconnect_delay_values asm_generic asm_generic_valid (-5)).2.2.2
      (by decide) (by decide) (by decide) (by decide) (by decide) (by decide) (by decide)
      (by decide)⟩

/-- C6, as stated, fails: on the running, Connected TCP device
`connected_tcp_device` the failing send result `-5` (`-EIO`, none of the eight
errors the send path names, neither would-block nor no-buffer-space, classified
to 500 ms) leaves the state Connected and schedules no reconnect. -/
theorem send_built_packet_unclassified_counterexample :
    connected_tcp_device.is_tcp = true ∧ connected_tcp_device.is_running = true ∧
    connected_tcp_device.connection_state = STATE_CONNECTED ∧
    (-5 : Int) < 0 ∧ (-5 : Int) ≠ -asm_generic.EAGAIN ∧ (-5 : Int) ≠ -asm_generic.ENOBUFS ∧
    scream_reconnect_delay_ms_for_err asm_generic (-5) = 500 ∧
    scream_send_built_packet asm_generic connected_tcp_device (-5) =
      some (-5, connected_tcp_device,
        [.kernel_sendmsg 1 (connected_tcp_device.network_buffer.take SCREAM_PACKET_SIZE)
          SCREAM_PACKET_SIZE]) ∧
    connected_tcp_device.connection_state ≠ STATE_DISCONNECTED := by
  refine ⟨rfl, rfl, rfl, by decide, by decide, by decide, by decide, ?_, by decide⟩
  simp [scream_send_built_packet, connected_tcp_device, init_device, asm_generic,
    STATE_CONNECTED]

/-- C6, amended: on a connection-oriented device that is running and Connected,
a failing send result that is one of `-EPIPE`, `-ECONNRESET`, `-ESHUTDOWN`,
`-ETIMEDOUT`, `-ENOTCONN`, `-ENETUNREACH`, `-EHOSTUNREACH`, `-EADDRNOTAVAIL`
makes `scream_send_built_packet` move the state from Connected to Disconnected
and schedule the reconnect task once, after
`scream_reconnect_delay_ms_for_err` of the error; every other failing result
leaves the device as it was and schedules nothing. -/
theorem send_built_packet_failure (E : errno_table) (hE : E.valid)
    (dev : snd_scream_device) (sock : Nat) (ret : Int)
    (htcp : dev.is_tcp = true) (hrun : dev.is_running = true)
    (hconn : dev.connection_state = STATE_CONNECTED) (hsock : dev.sock = some sock)
    (hneg : ret < 0) :
    ((ret = -E.EPIPE ∨ ret = -E.ECONNRESET ∨ ret = -E.ESHUTDOWN ∨ ret = -E.ETIMEDOUT ∨
        ret = -E.ENOTCONN ∨ ret = -E.ENETUNREACH ∨ ret = -E.EHOSTUNREACH ∨
        ret = -E.EADDRNOTAVAIL) →
      scream_send_built_packet E dev ret =
        some (ret, { dev with connection_state := STATE_DISCONNECTED },
          [.kernel_sendmsg sock (dev.network_buffer.take SCREAM_PACKET_SIZE)
              SCREAM_PACKET_SIZE,
            .schedule_delayed_work (scream_reconnect_delay_ms_for_err E ret)])) ∧
    (¬ (ret = -E.EPIPE ∨ ret = -E.ECONNRESET ∨ ret = -E.ESHUTDOWN ∨ ret = -E.ETIMEDOUT ∨
        ret = -E.ENOTCONN ∨ ret = -E.ENETUNREACH ∨ ret = -E.EHOSTUNREACH ∨
        ret = -E.EADDRNOTAVAIL) →
      scream_send_built_packet E dev ret =
        some (ret, dev,
          [.kernel_sendmsg sock (dev.network_buffer.take SCREAM_PACKET_SIZE)
            SCREAM_PACKET_SIZE])) := by
  obtain ⟨-, hne⟩ := errno_valid_facts E hE
  have hsym := hne.imp (fun h => Ne.symm h)
  simp only [errno_table.values, List.pairwise_cons, List.mem_cons, List.mem_singleton,
    forall_eq_or_imp, forall_eq] at hne hsym
  unfold scream_send_built_packet
  simp only [htcp, hrun, hconn, hsock, hneg, if_true, ne_eq, not_true_eq_false, if_false,
    Bool.not_true, Bool.false_eq_true]
  constructor
  · intro h
    have hnot : ¬ (ret = -E.EAGAIN ∨ ret = -E.ENOBUFS) := by
      rcases h with h | h | h | h | h | h | h | h <;> subst h <;> simp [hne, hsym]
    rw [if_neg hnot, if_pos h]
  · intro h
    rw [if_neg h]
    split_ifs <;> rfl

theorem send_built_packet_failure_witness :
    scream_send_built_packet asm_generic connected_tcp_device (-32) =
      some (-32, { connected_tcp_device with connection_state := STATE_DISCONNECTED },
        [.kernel_sendmsg 1 (connected_tcp_device.network_buffer.take SCREAM_PACKET_SIZE)
            SCREAM_PACKET_SIZE,
          .schedule_delayed_work (scream_reconnect_delay_ms_for_err asm_generic (-32))]) :=
  (send_built_packet_failure asm_generic asm_generic_valid connected_tcp_device 1 (-32)
    rfl rfl rfl rfl (by decide)).1 (Or.inl rfl)

/-! ## Reconnect task (`scream_reconnect_work`) -/

theorem s32_of_small (z : Int) (h0 : -2 ^ 31 ≤ z) (h1 : z < 2 ^ 31) : s32 z = z := by
  unfold s32; omega

/-- The scheduling calls of the `case STATE_DISCONNECTED` block, for every
outcome of the socket creation and the connect. -/
theorem reconnect_disconnected_step (E : errno_table) (hE : E.valid)
    (dev : snd_scream_device) (env : reconnect_env)
    (hlo : -2 ^ 31 ≤ dev.reconnect_attempts) (hatt : dev.reconnect_attempts < 10) :
    (0 ≤ env.sock_create_ret → env.connect_ret = 0 →
      (scream_reconnect_work_disconnected E dev env).1 =
          { dev with sock := some env.new_sock, connection_state := STATE_CONNECTED,
                     reconnect_attempts := 0 } ∧
        (scream_reconnect_work_disconnected E dev env).2.filter
          Event.is_schedule_delayed_work = []) ∧
    (0 ≤ env.sock_create_ret → env.connect_ret = -E.EINPROGRESS →
      (scream_reconnect_work_disconnected E dev env).1 =
          { dev with sock := some env.new_sock, connection_state := STATE_CONNECTING,
                     reconnect_attempts := dev.reconnect_attempts + 1 } ∧
        (scream_reconnect_work_disconnected E dev env).2.filter
          Event.is_schedule_delayed_work = [.schedule_delayed_work 200]) ∧
    ((env.sock_create_ret < 0 ∨
        (env.connect_ret ≠ 0 ∧ env.connect_ret ≠ -E.EINPROGRESS)) →
      (scream_reconnect_work_disconnected E dev env).1 =
          { dev with sock := none, connection_state := STATE_DISCONNECTED,
                     reconnect_attempts := dev.reconnect_attempts + 1 } ∧
        (scream_reconnect_work_disconnected E dev env).2.filter
          Event.is_schedule_delayed_work = [.schedule_delayed_work 2000]) := by
  obtain ⟨⟨_, _, _, _, _, _, _, _, _, _, _, hpos⟩, -⟩ := errno_valid_facts E hE
  have hs : s32 (dev.reconnect_attempts + 1) = dev.reconnect_attempts + 1 :=
    s32_of_small _ (by omega) (by omega)
  have hle : ¬ dev.reconnect_attempts + 1 > 10 := by omega
  unfold scream_reconnect_work_disconnected
  simp only [hs, hle, if_false]
  refine ⟨?_, ?_, ?_⟩
  · intro h1 h2
    have h1n : ¬ env.sock_create_ret < 0 := by omega
    cases hsock : dev.sock <;>
      simp [h1n, h2, List.filter, Event.is_schedule_delayed_work]
  · intro h1 h2
    have h1n : ¬ env.sock_create_ret < 0 := by omega
    have h0 : ¬ -E.EINPROGRESS = 0 := by omega
    cases hsock : dev.sock <;>
      simp [h1n, h2, h0, List.filter, Event.is_schedule_delayed_work]
  · intro h
    by_cases h1 : env.sock_create_ret < 0
    · cases hsock : dev.sock <;>
        simp [h1, List.filter, Event.is_schedule_delayed_work]
    · obtain ⟨h2, h3⟩ := h.resolve_left h1
      cases hsock : dev.sock <;>
        simp [h1, h2, h3, List.filter, Event.is_schedule_delayed_work]

/-- The whole result of the `case STATE_DISCONNECTED` block, device and kernel
calls in order, for each outcome of the socket creation and the connect. A
leftover socket is shut down and released first in every case. -/
theorem reconnect_disconnected_result (E : errno_table) (hE : E.valid)
    (dev : snd_scream_device) (env : reconnect_env)
    (hlo : -2 ^ 31 ≤ dev.reconnect_attempts) (hatt : dev.reconnect_attempts < 10) :
    (0 ≤ env.sock_create_ret → env.connect_ret = 0 →
      scream_reconnect_work_disconnected E dev env =
        ({ dev with sock := some env.new_sock, connection_state := STATE_CONNECTED,
                    reconnect_attempts := 0 },
          (match dev.sock with
            | some old => [Event.kernel_sock_shutdown old, Event.sock_release old]
            | none => []) ++
          [.sock_create, .set_sockopt env.new_sock, .set_sockopt env.new_sock,
            .kernel_connect env.new_sock, .set_sock_timeouts env.new_sock 5000])) ∧
    (0 ≤ env.sock_create_ret → env.connect_ret = -E.EINPROGRESS →
      scream_reconnect_work_disconnected E dev env =
        ({ dev with sock := some env.new_sock, connection_state := STATE_CONNECTING,
                    reconnect_attempts := dev.reconnect_attempts + 1 },
          (match dev.sock with
            | some old => [Event.kernel_sock_shutdown old, Event.sock_release old]
            | none => []) ++
          [.sock_create, .set_sockopt env.new_sock, .set_sockopt env.new_sock,
            .kernel_connect env.new_sock, .schedule_delayed_work 200])) ∧
    (env.sock_create_ret < 0 →
      scream_reconnect_work_disconnected E dev env =
        ({ dev with sock := none, connection_state := STATE_DISCONNECTED,
                    reconnect_attempts := dev.reconnect_attempts + 1 },
          (match dev.sock with
            | some old => [Event.kernel_sock_shutdown old, Event.sock_release old]
            | none => []) ++
          [.sock_create, .schedule_delayed_work 2000])) ∧
    (0 ≤ env.sock_create_ret → env.connect_ret ≠ 0 → env.connect_ret ≠ -E.EINPROGRESS →
      scream_reconnect_work_disconnected E dev env =
        ({ dev with sock := none, connection_state := STATE_DISCONNECTED,
                    reconnect_attempts := dev.reconnect_attempts + 1 },
          (match dev.sock with
            | some old => [Event.kernel_sock_shutdown old, Event.sock_release old]
            | none => []) ++
          [.sock_create, .set_sockopt env.new_sock, .set_sockopt env.new_sock,
            .kernel_connect env.new_sock, .sock_release env.new_sock,
            .schedule_delayed_work 2000])) := by
  obtain ⟨⟨_, _, _, _, _, _, _, _, _, _, _, hpos⟩, -⟩ := errno_valid_facts E hE
  have hs : s32 (dev.reconnect_attempts + 1) = dev.reconnect_attempts + 1 :=
    s32_of_small _ (by omega) (by omega)
  have hle : ¬ dev.reconnect_attempts + 1 > 10 := by omega
  unfold scream_reconnect_work_disconnected
  simp only [hs, hle, if_false]
  refine ⟨?_, ?_, ?_, ?_⟩
  · intro h1 h2
    have h1n : ¬ env.sock_create_ret < 0 := by omega
    cases hsock : dev.sock <;> simp [h1n, h2]
  · intro h1 h2
    have h1n : ¬ env.sock_create_ret < 0 := by omega
    have h0 : ¬ -E.EINPROGRESS = 0 := by omega
    cases hsock : dev.sock <;> simp [h1n, h2, h0]
  · intro h1
    cases hsock : dev.sock <;> simp [h1]
  · intro h1 h2 h3
    have h1n : ¬ env.sock_create_ret < 0 := by omega
    cases hsock : dev.sock <;> simp [h1n, h2, h3]

/-- C8: for a connection-oriented device in state Disconnected whose attempt
counter is below 10, one run of `scream_reconnect_work` gives: on an
immediately successful connect, state Connected, counter 0 and nothing
scheduled; on an in-progress connect, state Connecting and exactly one poll
scheduled at 200 ms; on a socket-creation failure or any other connect result,
state Disconnected, the socket handle NULL, every socket the run held released
by `sock_release` (a leftover one, and the new one when it was created) and
exactly one retry scheduled at 2000 ms. The last four parts give the whole
result, device and kernel calls in order, for each outcome. -/
theorem reconnect_from_disconnected (E : errno_table) (hE : E.valid)
    (dev : snd_scream_device) (env : reconnect_env)
    (htcp : dev.is_tcp = true) (hst : dev.connection_state = STATE_DISCONNECTED)
    (hlo : -2 ^ 31 ≤ dev.reconnect_attempts) (hatt : dev.reconnect_attempts < 10) :
    (0 ≤ env.sock_create_ret → env.connect_ret = 0 →
      (scream_reconnect_work E dev env).1.connection_state = STATE_CONNECTED ∧
        (scream_reconnect_work E dev env).1.reconnect_attempts = 0 ∧
        (scream_reconnect_work E dev env).2.filter Event.is_schedule_delayed_work = []) ∧
    (0 ≤ env.sock_create_ret → env.connect_ret = -E.EINPROGRESS →
      (scream_reconnect_work E dev env).1.connection_state = STATE_CONNECTING ∧
        (scream_reconnect_work E dev env).2.filter Event.is_schedule_delayed_work =
          [.schedule_delayed_work 200]) ∧
    ((env.sock_create_ret < 0 ∨
        (env.connect_ret ≠ 0 ∧ env.connect_ret ≠ -E.EINPROGRESS)) →
      (scream_reconnect_work E dev env).1.connection_state = STATE_DISCONNECTED ∧
        (scream_reconnect_work E dev env).1.sock = none ∧
        (scream_reconnect_work E dev env).2.filter Event.is_schedule_delayed_work =
          [.schedule_delayed_work 2000] ∧
        (∀ old, dev.sock = some old →
          Event.sock_release old ∈ (scream_reconnect_work E dev env).2) ∧
        (0 ≤ env.sock_create_ret →
          Event.sock_release env.new_sock ∈ (scream_reconnect_work E dev env).2)) ∧
    (0 ≤ env.sock_create_ret → env.connect_ret = 0 →
      scream_reconnect_work E dev env =
        ({ dev with sock := some env.new_sock, connection_state := STATE_CONNECTED,
                    reconnect_attempts := 0 },
          (match dev.sock with
            | some old => [Event.kernel_sock_shutdown old, Event.sock_release old]
            | none => []) ++
          [.sock_create, .set_sockopt env.new_sock, .set_sockopt env.new_sock,
            .kernel_connect env.new_sock, .set_sock_timeouts env.new_sock 5000])) ∧
    (0 ≤ env.sock_create_ret → env.connect_ret = -E.EINPROGRESS →
      scream_reconnect_work E dev env =
        ({ dev with sock := some env.new_sock, connection_state := STATE_CONNECTING,
                    reconnect_attempts := dev.reconnect_attempts + 1 },
          (match dev.sock with
            | some old => [Event.kernel_sock_shutdown old, Event.sock_release old]
            | none => []) ++
          [.sock_create, .set_sockopt env.new_sock, .set_sockopt env.new_sock,
            .kernel_connect env.new_sock, .schedule_delayed_work 200])) ∧
    (env.sock_create_ret < 0 →
      scream_reconnect_work E dev env =
        ({ dev with sock := none, connection_state := STATE_DISCONNECTED,
                    reconnect_attempts := dev.reconnect_attempts + 1 },
          (match dev.sock with
            | some old => [Event.kernel_sock_shutdown old, Event.sock_release old]
            | none => []) ++
          [.sock_create, .schedule_delayed_work 2000])) ∧
    (0 ≤ env.sock_create_ret → env.connect_ret ≠ 0 → env.connect_ret ≠ -E.EINPROGRESS →
      scream_reconnect_work E dev env =
        ({ dev with sock := none, connection_state := STATE_DISCONNECTED,
                    reconnect_attempts := dev.reconnect_attempts + 1 },
          (match dev.sock with
            | some old => [Event.kernel_sock_shutdown old, Event.sock_release old]
            | none => []) ++
          [.sock_create, .set_sockopt env.new_sock, .set_sockopt env.new_sock,
            .kernel_connect env.new_sock, .sock_release env.new_sock,
            .schedule_delayed_work 2000])) := by
  have hrun : scream_reconnect_work E dev env =
      scream_reconnect_work_disconnected E dev env := by
    unfold scream_reconnect_work
    simp [htcp, hst, STATE_DISCONNECTED, STATE_CONNECTED, STATE_CONNECTING]
  obtain ⟨ha, hb, hc⟩ := reconnect_disconnected_step E hE dev env hlo hatt
  obtain ⟨ra, rb, rc, rd⟩ := reconnect_disconnected_result E hE dev env hlo hatt
  rw [hrun]
  refine ⟨fun h1 h2 => ?_, fun h1 h2 => ?_, fun h => ?_, ra, rb, rc, rd⟩
  · obtain ⟨h3, h4⟩ := ha h1 h2
    rw [h3]; exact ⟨rfl, rfl, h4⟩
  · obtain ⟨h3, h4⟩ := hb h1 h2
    rw [h3]; exact ⟨rfl, h4⟩
  · obtain ⟨h3, h4⟩ := hc h
    refine ⟨by rw [h3], by rw [h3], h4, ?_, ?_⟩
    · intro old hold
      by_cases h1 : env.sock_create_ret < 0
      · rw [rc h1, hold]; simp
      · obtain ⟨h2, h5⟩ := h.resolve_left h1
        rw [rd (by omega) h2 h5, hold]; simp
    · intro h1
      obtain ⟨h2, h5⟩ := h.resolve_left (by omega)
      rw [rd h1 h2 h5]; simp

theorem reconnect_from_disconnected_witness :
    scream_reconnect_work asm_generic { disconnected_tcp_device with sock := some 3 }
        refused_env =
      ({ disconnected_tcp_device with reconnect_attempts := 0 + 1 },
        [.kernel_sock_shutdown 3, .sock_release 3, .sock_create, .set_sockopt 7,
          .set_sockopt 7, .kernel_connect 7, .sock_release 7,
          .schedule_delayed_work 2000]) :=
  (reconnect_from_disconnected asm_generic asm_generic_valid
    { disconnected_tcp_device with sock := some 3 } refused_env rfl rfl (by decide)
    (by decide)).2.2.2.2.2.2 (by decide) (by decide) (by decide)

theorem reconnect_runs_append (E : errno_table) (as bs : List reconnect_env) :
    ∀ dev : snd_scream_device, reconnect_runs E dev (as ++ bs) =
      ((reconnect_runs E (reconnect_runs E dev as).1 bs).1,
        (reconnect_runs E dev as).2 ++ (reconnect_runs E (reconnect_runs E dev as).1 bs).2) := by
  induction as with
  | nil => intro dev; rfl
  | cons a as ih =>
    intro dev
    show reconnect_runs E dev (a :: (as ++ bs)) = _
    simp only [reconnect_runs]
    rw [ih]
    rfl

/-- A run of immediate failures that stays within ten attempts: the device
stays Disconnected, counts every attempt and schedules one retry per run. -/
theorem reconnect_runs_failing (E : errno_table) (hE : E.valid) (envs : List reconnect_env) :
    ∀ (dev : snd_scream_device) (n : Nat), dev.is_tcp = true →
      dev.connection_state = STATE_DISCONNECTED → dev.reconnect_attempts = n →
      n + envs.length ≤ 10 →
      (∀ e ∈ envs, e.sock_create_ret < 0 ∨
        (e.connect_ret ≠ 0 ∧ e.connect_ret ≠ -E.EINPROGRESS)) →
      (reconnect_runs E dev envs).1.is_tcp = true ∧
      (reconnect_runs E dev envs).1.connection_state = STATE_DISCONNECTED ∧
      (reconnect_runs E dev envs).1.reconnect_attempts = (n + envs.length : Nat) ∧
      (reconnect_runs E dev envs).2.length = envs.length ∧
      ∀ evs ∈ (reconnect_runs E dev envs).2,
        evs.filter Event.is_schedule_delayed_work = [.schedule_delayed_work 2000] := by
  induction envs with
  | nil =>
    intro dev n htcp hst hatt _ _
    exact ⟨htcp, hst, by simpa using hatt, rfl, by simp [reconnect_runs]⟩
  | cons e envs ih =>
    intro dev n htcp hst hatt hn hfail
    simp only [List.length_cons] at hn
    have hrun : scream_reconnect_work E dev e =
        scream_reconnect_work_disconnected E dev e := by
      unfold scream_reconnect_work
      simp [htcp, hst, STATE_DISCONNECTED, STATE_CONNECTED, STATE_CONNECTING]
    obtain ⟨hd, hev⟩ := (reconnect_disconnected_step E hE dev e
      (by rw [hatt]; have : (0 : Int) ≤ n := Int.ofNat_nonneg n; omega)
      (by rw [hatt]; omega)).2.2 (hfail e (List.mem_cons_self _ _))
    obtain ⟨i1, i2, i3, i4, i5⟩ := ih (scream_reconnect_work E dev e).1 (n + 1)
      (by rw [hrun, hd]; exact htcp) (by rw [hrun, hd])
      (by rw [hrun, hd]; simp [hatt]) (by omega)
      (fun x hx => hfail x (List.mem_cons_of_mem _ hx))
    simp only [reconnect_runs]
    refine ⟨i1, i2, ?_, by simp [i4], ?_⟩
    · rw [i3]; simp only [List.length_cons]; push_cast; ring
    · intro evs hmem
      rcases List.mem_cons.mp hmem with h | h
      · rw [h, hrun]; exact hev
      · exact i5 evs h

/-- The run after the tenth attempt gives up: it resets the counter and makes
no kernel call. -/
theorem reconnect_work_gives_up (E : errno_table) (dev : snd_scream_device)
    (env : reconnect_env) (htcp : dev.is_tcp = true)
    (hst : dev.connection_state = STATE_DISCONNECTED) (hatt : dev.reconnect_attempts = 10) :
    scream_reconnect_work E dev env = ({ dev with reconnect_attempts := 0 }, []) := by
  unfold scream_reconnect_work scream_reconnect_work_disconnected
  have hs : s32 11 = 11 := by unfold s32; omega
  simp [htcp, hst, hatt, hs, STATE_DISCONNECTED, STATE_CONNECTED, STATE_CONNECTING]

/-- C9: from a connection-oriented device in state Disconnected with attempt
counter 0, eleven runs of `scream_reconnect_work` in a row whose socket
creation or connect fails immediately leave the device Disconnected with the
counter back at 0; each of the first ten runs schedules exactly one retry (at
2000 ms) and the eleventh makes no kernel call at all: it schedules nothing and
opens no socket. -/
theorem reconnect_gives_up_after_ten (E : errno_table) (hE : E.valid)
    (dev : snd_scream_device) (envs : List reconnect_env)
    (htcp : dev.is_tcp = true) (hst : dev.connection_state = STATE_DISCONNECTED)
    (hatt : dev.reconnect_attempts = 0) (hlen : envs.length = 11)
    (hfail : ∀ e ∈ envs, e.sock_create_ret < 0 ∨
      (e.connect_ret ≠ 0 ∧ e.connect_ret ≠ -E.EINPROGRESS)) :
    (reconnect_runs E dev envs).1.connection_state = STATE_DISCONNECTED ∧
    (reconnect_runs E dev envs).1.reconnect_attempts = 0 ∧
    (reconnect_runs E dev envs).2.length = 11 ∧
    (∀ evs ∈ (reconnect_runs E dev envs).2.take 10,
      evs.filter Event.is_schedule_delayed_work = [.schedule_delayed_work 2000]) ∧
    (reconnect_runs E dev envs).2.drop 10 = [[]] := by
  have hsplit : envs = envs.take 10 ++ envs.drop 10 := (List.take_append_drop 10 envs).symm
  have hfront : (envs.take 10).length = 10 := by rw [List.length_take, hlen]; rfl
  obtain ⟨last, hlast⟩ : ∃ last, envs.drop 10 = [last] :=
    List.length_eq_one.mp (by rw [List.length_drop, hlen])
  rw [hlast] at hsplit
  generalize envs.take 10 = front at hsplit hfront
  subst hsplit
  obtain ⟨f1, f2, f3, f4, f5⟩ := reconnect_runs_failing E hE front dev 0 htcp hst
    (by simpa using hatt) (by omega)
    (fun e he => hfail e (List.mem_append_left _ he))
  rw [hfront] at f3
  have hl := reconnect_work_gives_up E (reconnect_runs E dev front).1 last f1 f2
    (by rw [f3]; rfl)
  rw [reconnect_runs_append]
  simp only [reconnect_runs, hl]
  refine ⟨f2, trivial, by simp [f4, hfront], ?_, ?_⟩
  · rw [List.take_append_of_le_length (by omega), List.take_of_length_le (by omega)]
    exact f5
  · rw [List.drop_append_of_le_length (by omega), List.drop_of_length_le (by omega)]
    rfl

theorem reconnect_gives_up_after_ten_witness :
    (reconnect_runs asm_generic disconnected_tcp_device
      (List.replicate 11 refused_env)).1.connection_state = STATE_DISCONNECTED ∧
    (reconnect_runs asm_generic disconnected_tcp_device
      (List.replicate 11 refused_env)).2.drop 10 = [[]] :=
  have h := reconnect_gives_up_after_ten asm_generic asm_generic_valid disconnected_tcp_device
    (List.replicate 11 refused_env) rfl rfl rfl rfl
    (by simp [refused_env, asm_generic])
  ⟨h.1, h.2.2.2.2⟩

/-! ## End-of-stream marker (`scream_send_last_packet`) -/

/-- The static buffer after the header copy and the store of the marker. -/
theorem lastbuf_marked (nb lastbuf : List Nat) (h1 : 5 ≤ nb.length) (h2 : 5 ≤ lastbuf.length) :
    memcpy lastbuf 0 nb 0 SCREAM_HEADER_SIZE = some (nb.take 5 ++ lastbuf.drop 5) ∧
    4 < (nb.take 5 ++ lastbuf.drop 5).length ∧
    (nb.take 5 ++ lastbuf.drop 5).set 4 0x80 = nb.take 4 ++ [0x80] ++ lastbuf.drop 5 ∧
    (nb.take 4 ++ [0x80] ++ lastbuf.drop 5).take 5 = nb.take 4 ++ [0x80] ∧
    (nb.take 4 ++ [0x80] ++ lastbuf.drop 5).length = lastbuf.length := by
  refine ⟨?_, ?_, ?_, ?_, ?_⟩
  · rw [memcpy_eq_some _ _ _ _ _ (by simpa [SCREAM_HEADER_SIZE] using h2)
      (by simpa [SCREAM_HEADER_SIZE] using h1)]
    simp [SCREAM_HEADER_SIZE]
  · simp only [List.length_append, List.length_take, List.length_drop]; omega
  · match nb, h1 with
    | _ :: _ :: _ :: _ :: _ :: _, _ => simp
  · match nb, h1 with
    | _ :: _ :: _ :: _ :: _ :: _, _ => simp
  · simp only [List.length_append, List.length_take, List.length_drop, List.length_singleton]
    omega

/-- C10: the end-of-stream message built by `scream_send_last_packet` has bytes
0..3 equal to the device's header bytes 0..3 and byte 4 equal to `0x80`; on the
connectionless transport 5 bytes are sent, on the connection-oriented transport
when Connected 1157 bytes (the marked header, then bytes 5.. of the static
buffer); on a connection-oriented device that is not Connected nothing is sent
and `-ENOTCONN` is returned; the device, its packet buffer included, is
unchanged in all three cases. -/
theorem send_last_packet_message (E : errno_table) (dev : snd_scream_device)
    (lastbuf : List Nat) (sendmsg_ret : Int)
    (hlen : dev.network_buffer.length = SCREAM_PACKET_SIZE)
    (hlb : lastbuf.length = SCREAM_PACKET_SIZE) :
    (∀ sock, dev.is_tcp = false → dev.sock = some sock →
      scream_send_last_packet E dev lastbuf sendmsg_ret =
        some (sendmsg_ret, dev, dev.network_buffer.take 4 ++ [0x80] ++ lastbuf.drop 5,
          [.kernel_sendmsg sock (dev.network_buffer.take 4 ++ [0x80]) 5]) ∧
      (dev.network_buffer.take 4 ++ [0x80]).length = 5) ∧
    (∀ sock, dev.is_tcp = true → dev.connection_state = STATE_CONNECTED →
      dev.sock = some sock →
      scream_send_last_packet E dev lastbuf sendmsg_ret =
        some (sendmsg_ret, dev, dev.network_buffer.take 4 ++ [0x80] ++ lastbuf.drop 5,
          [.kernel_sendmsg sock (dev.network_buffer.take 4 ++ [0x80] ++ lastbuf.drop 5)
            1157]) ∧
      (dev.network_buffer.take 4 ++ [0x80] ++ lastbuf.drop 5).length = 1157) ∧
    (dev.is_tcp = true → dev.connection_state ≠ STATE_CONNECTED →
      scream_send_last_packet E dev lastbuf sendmsg_ret =
        some (-E.ENOTCONN, dev, dev.network_buffer.take 4 ++ [0x80] ++ lastbuf.drop 5,
          [])) := by
  have h1 : 5 ≤ dev.network_buffer.length := by rw [hlen]; decide
  have h2 : 5 ≤ lastbuf.length := by rw [hlb]; decide
  obtain ⟨hcopy, hlt, hset, htake, hlength⟩ := lastbuf_marked dev.network_buffer lastbuf h1 h2
  have hfull : (dev.network_buffer.take 4 ++ [0x80] ++ lastbuf.drop 5).take
      SCREAM_PACKET_SIZE = dev.network_buffer.take 4 ++ [0x80] ++ lastbuf.drop 5 :=
    List.take_of_length_le (by rw [hlength, hlb])
  have hfive : (dev.network_buffer.take 4 ++ [0x80]).length = 5 := by
    simp only [List.length_append, List.length_take, List.length_singleton]; omega
  unfold scream_send_last_packet
  simp only [hcopy, hlt, if_true, hset]
  refine ⟨?_, ?_, ?_⟩
  · intro sock htcp hsock
    refine ⟨?_, hfive⟩
    simp only [htcp, hsock, Bool.false_eq_true, if_false]
    rw [show SCREAM_HEADER_SIZE = 5 from rfl, htake]
  · intro sock htcp hconn hsock
    refine ⟨?_, by rw [hlength, hlb]; rfl⟩
    simp only [htcp, hconn, hsock, if_true, ne_eq, not_true_eq_false, if_false]
    rw [hfull]; rfl
  · intro htcp hconn
    simp only [htcp, if_true, ne_eq, hconn, not_false_eq_true]

theorem send_last_packet_message_witness :
    scream_send_last_packet asm_generic connected_tcp_device
        (List.replicate SCREAM_PACKET_SIZE 0) 1157 =
      some (1157, connected_tcp_device,
        connected_tcp_device.network_buffer.take 4 ++ [0x80] ++
          (List.replicate SCREAM_PACKET_SIZE 0).drop 5,
        [.kernel_sendmsg 1 (connected_tcp_device.network_buffer.take 4 ++ [0x80] ++
          (List.replicate SCREAM_PACKET_SIZE 0).drop 5) 1157]) :=
  ((send_last_packet_message asm_generic connected_tcp_device
    (List.replicate SCREAM_PACKET_SIZE 0) 1157 (by simp [connected_tcp_device, init_device])
    (by simp)).2.1 1 rfl rfl rfl).1

/-! ## Transmission worker (`scream_tx_work`) -/

/-- On the connection-oriented transport the send path checks the running flag:
a stopped device sends nothing. -/
theorem tx_work_tcp_stopped (E : errno_table) (dev : snd_scream_device) (sendmsg_ret : Int)
    (htcp : dev.is_tcp = true) (hrun : dev.is_running = false) :
    ∃ dev1 evs, scream_tx_work E dev sendmsg_ret = some (dev1, evs) ∧
      evs.filter Event.is_kernel_sendmsg = [] := by
  unfold scream_tx_work scream_send_built_packet
  cases hsub : dev.substream
  · exact ⟨{ dev with tx_pending := 0 }, [], by simp [hsub], rfl⟩
  · refine ⟨{ dev with tx_pending := 0 }, [.snd_pcm_period_elapsed], ?_, rfl⟩
    by_cases hc : dev.connection_state = STATE_CONNECTED
    · cases hs : dev.send <;> simp [htcp, hrun, hc, hsub, hs]
    · simp [htcp, hc, hsub]

/-- C11 fails on the connectionless transport: the STOP trigger clears
`is_running` on `ready_udp_device` and leaves the ready packet and the scheduled
worker in place; the activation of `scream_tx_work` that follows sends the
packet although the device is stopped. -/
theorem tx_work_udp_sends_when_stopped :
    snd_scream_pcm_trigger asm_generic ready_udp_device .SNDRV_PCM_TRIGGER_STOP =
      (0, { ready_udp_device with is_running := false }, []) ∧
    ({ ready_udp_device with is_running := false } : snd_scream_device).is_running = false ∧
    scream_tx_work asm_generic { ready_udp_device with is_running := false } 1157 =
      some ({ ready_udp_device with is_running := false, tx_pending := 0 },
        [.snd_pcm_period_elapsed,
          .kernel_sendmsg 1 (ready_udp_device.network_buffer.take SCREAM_PACKET_SIZE)
            SCREAM_PACKET_SIZE]) ∧
    ([Event.snd_pcm_period_elapsed,
        .kernel_sendmsg 1 (ready_udp_device.network_buffer.take SCREAM_PACKET_SIZE)
          SCREAM_PACKET_SIZE].filter Event.is_kernel_sendmsg).length = 1 := by
  refine ⟨rfl, rfl, ?_, rfl⟩
  simp [scream_tx_work, scream_send_built_packet, ready_udp_device, init_device,
    STATE_CONNECTED]

/-! ## Stopping (`snd_scream_pcm_close`, `scream_cleanup_resources`, STOP trigger) -/

/-- The device `scream_cleanup_resources` leaves behind. -/
theorem cleanup_resources_state (dev : snd_scream_device) :
    (scream_cleanup_resources dev).1 =
      { dev with
        sock := none
        connection_state := STATE_DISCONNECTED
        reconnect_attempts := 0
        tx_pending := 0
        is_running := false
        substream := false } := by
  unfold scream_cleanup_resources
  cases hr : dev.is_running <;> cases hs : dev.sock <;> simp [hr, hs]

/-- On a device that is already stopped and closed, `scream_cleanup_resources`
changes nothing and only cancels the timer and the work items. -/
theorem cleanup_resources_closed (dev : snd_scream_device)
    (hrun : dev.is_running = false) (hsock : dev.sock = none)
    (hst : dev.connection_state = STATE_DISCONNECTED) (hatt : dev.reconnect_attempts = 0)
    (htx : dev.tx_pending = 0) (hsub : dev.substream = false) :
    scream_cleanup_resources dev =
      (dev, (if dev.timer_function then [Event.hrtimer_cancel] else []) ++
        [Event.cancel_work_sync, Event.cancel_delayed_work_sync]) := by
  obtain ⟨a, b, c, d, e, f, g, h, i, j, k, l, m, n, o, q⟩ := dev
  simp only at hrun hsock hst hatt htx hsub
  subst hrun hsock hst hatt htx hsub
  simp [scream_cleanup_resources]

/-- The close of a device that is already stopped and closed: no end-of-stream
marker, nothing changed. -/
theorem close_closed (E : errno_table) (dev : snd_scream_device) (lastbuf : List Nat)
    (sendmsg_ret : Int)
    (hrun : dev.is_running = false) (hsock : dev.sock = none)
    (hst : dev.connection_state = STATE_DISCONNECTED) (hatt : dev.reconnect_attempts = 0)
    (htx : dev.tx_pending = 0) (hsub : dev.substream = false) :
    snd_scream_pcm_close E dev lastbuf sendmsg_ret =
      some (0, dev, lastbuf, (if dev.timer_function then [Event.hrtimer_cancel] else []) ++
        [Event.cancel_work_sync, Event.cancel_delayed_work_sync]) := by
  unfold snd_scream_pcm_close
  simp [hrun, hsock, cleanup_resources_closed dev hrun hsock hst hatt htx hsub]

/-- The end-of-stream send returns whenever it is reached from the close, both
buffers having their declared length. -/
theorem send_last_packet_defined (E : errno_table) (dev : snd_scream_device)
    (lastbuf : List Nat) (sendmsg_ret : Int)
    (hlen : dev.network_buffer.length = SCREAM_PACKET_SIZE)
    (hlb : lastbuf.length = SCREAM_PACKET_SIZE) (hsock : dev.sock.isSome = true) :
    ∃ rc lb evs, scream_send_last_packet E dev lastbuf sendmsg_ret =
      some (rc, dev, lb, evs) := by
  have h1 : 5 ≤ dev.network_buffer.length := by rw [hlen]; decide
  have h2 : 5 ≤ lastbuf.length := by rw [hlb]; decide
  obtain ⟨hcopy, hlt, -, -, -⟩ := lastbuf_marked dev.network_buffer lastbuf h1 h2
  obtain ⟨sock, hs⟩ := Option.isSome_iff_exists.mp hsock
  unfold scream_send_last_packet
  simp only [hcopy, hlt, if_true, hs]
  cases dev.is_tcp
  · exact ⟨_, _, _, rfl⟩
  · by_cases hc : dev.connection_state = STATE_CONNECTED
    · simp only [if_true, hc, ne_eq, not_true_eq_false, if_false]
      exact ⟨_, _, _, rfl⟩
    · simp only [if_true, hc, ne_eq, not_false_eq_true]
      exact ⟨_, _, _, rfl⟩

/-- The close returns, and the device it leaves is the one
`scream_cleanup_resources` produces. -/
theorem close_defined (E : errno_table) (dev : snd_scream_device) (lastbuf : List Nat)
    (sendmsg_ret : Int)
    (hlen : dev.network_buffer.length = SCREAM_PACKET_SIZE)
    (hlb : lastbuf.length = SCREAM_PACKET_SIZE) :
    ∃ d0 lb1 evs1, snd_scream_pcm_close E dev lastbuf sendmsg_ret =
      some (0, (scream_cleanup_resources d0).1, lb1, evs1) := by
  unfold snd_scream_pcm_close
  generalize hd : (if dev.is_running = true then
      (({ dev with is_running := false, tx_pending := 0 } : snd_scream_device),
        [Event.hrtimer_cancel, Event.cancel_work_sync])
    else (dev, [])) = stopped
  have hnb : stopped.1.network_buffer.length = SCREAM_PACKET_SIZE := by
    rw [← hd]; split_ifs <;> exact hlen
  simp only []
  by_cases hc : stopped.1.sock.isSome = true ∧ stopped.1.connection_state = STATE_CONNECTED
  · obtain ⟨rc, lb, evs, hsend⟩ :=
      send_last_packet_defined E stopped.1 lastbuf sendmsg_ret hnb hlb hc.1
    simp only [hc, and_self, if_true, hsend]
    exact ⟨_, _, _, rfl⟩
  · simp only [hc, if_false]
    exact ⟨_, _, _, rfl⟩

/-- C12: stopping twice in a row is idempotent. After a first
`snd_scream_pcm_close` (which returns, both buffers having their declared
length) a second close returns the same device and the same static buffer and
calls `kernel_sendmsg` not once, so no second end-of-stream marker is sent; the
same holds for `scream_cleanup_resources` alone and for the STOP trigger. -/
theorem stop_twice_idempotent (E : errno_table) (dev : snd_scream_device)
    (lastbuf : List Nat) (ret1 ret2 : Int)
    (hlen : dev.network_buffer.length = SCREAM_PACKET_SIZE)
    (hlb : lastbuf.length = SCREAM_PACKET_SIZE) :
    (∃ d1 lb1 evs1 evs2, snd_scream_pcm_close E dev lastbuf ret1 = some (0, d1, lb1, evs1) ∧
      snd_scream_pcm_close E d1 lb1 ret2 = some (0, d1, lb1, evs2) ∧
      evs2.filter Event.is_kernel_sendmsg = []) ∧
    (∃ evs2, scream_cleanup_resources (scream_cleanup_resources dev).1 =
        ((scream_cleanup_resources dev).1, evs2) ∧
      evs2.filter Event.is_kernel_sendmsg = []) ∧
    snd_scream_pcm_trigger E (snd_scream_pcm_trigger E dev .SNDRV_PCM_TRIGGER_STOP).2.1
        .SNDRV_PCM_TRIGGER_STOP =
      (0, (snd_scream_pcm_trigger E dev .SNDRV_PCM_TRIGGER_STOP).2.1, []) := by
  have hquiet : ∀ b : Bool, ((if b then [Event.hrtimer_cancel] else []) ++
      [Event.cancel_work_sync, Event.cancel_delayed_work_sync]).filter
        Event.is_kernel_sendmsg = [] := by
    intro b; cases b <;> rfl
  refine ⟨?_, ?_, ?_⟩
  · obtain ⟨d0, lb1, evs1, h1⟩ := close_defined E dev lastbuf ret1 hlen hlb
    refine ⟨_, lb1, evs1, (if d0.timer_function then [Event.hrtimer_cancel] else []) ++
      [Event.cancel_work_sync, Event.cancel_delayed_work_sync], h1, ?_,
      hquiet d0.timer_function⟩
    rw [cleanup_resources_state]
    exact close_closed E _ lb1 ret2 rfl rfl rfl rfl rfl rfl
  · refine ⟨(if dev.timer_function then [Event.hrtimer_cancel] else []) ++
      [Event.cancel_work_sync, Event.cancel_delayed_work_sync], ?_,
      hquiet dev.timer_function⟩
    rw [cleanup_resources_state]
    exact cleanup_resources_closed _ rfl rfl rfl rfl rfl rfl
  · unfold snd_scream_pcm_trigger
    cases hr : dev.is_running <;> simp [hr]

theorem stop_twice_idempotent_witness :
    ∃ d1 lb1 evs1 evs2,
      snd_scream_pcm_close asm_generic connected_tcp_device
        (List.replicate SCREAM_PACKET_SIZE 0) 1157 = some (0, d1, lb1, evs1) ∧
      snd_scream_pcm_close asm_generic d1 lb1 1157 = some (0, d1, lb1, evs2) ∧
      evs2.filter Event.is_kernel_sendmsg = [] :=
  (stop_twice_idempotent asm_generic connected_tcp_device
    (List.replicate SCREAM_PACKET_SIZE 0) 1157 1157
    (by simp [connected_tcp_device, init_device]) (by simp)).1

/-! ## The DSD transform (`convert_data`) -/

/-- The loop body of `convert_data`, as six stores of bytes of the old group. -/
theorem convert_data_group_eq (buf : List Nat) (p : Nat) (h : p + 6 < buf.length) :
    convert_data_group buf p =
      some ((((((buf.set (p + 1) (buf.getD (p + 4) 0)).set (p + 2) (buf.getD (p + 1) 0)).set
        (p + 3) (buf.getD (p + 5) 0)).set (p + 4) (buf.getD (p + 2) 0)).set
        (p + 5) (buf.getD (p + 6) 0)).set (p + 6) (buf.getD (p + 3) 0)) := by
  have e : ∀ k, k ≤ 6 → buf[p + k]? = some (buf.getD (p + k) 0) := by
    intro k hk
    have hlt : p + k < buf.length := by omega
    simp [List.getD_eq_getElem?_getD, List.getElem?_eq_getElem hlt]
  unfold convert_data_group
  simp only [Option.bind_eq_bind, Option.pure_def, bind, pure, List.getElem?_set,
    List.length_set, e 1 (by omega), e 2 (by omega), e 3 (by omega), e 4 (by omega),
    e 5 (by omega), e 6 (by omega), Option.bind]
  simp

/-- One round of the loop reorders the group at `p` and nothing else. -/
theorem convert_data_group_spec (buf : List Nat) (p : Nat) (h : p + 6 < buf.length) :
    ∃ r, convert_data_group buf p = some r ∧ r.length = buf.length ∧
      ∀ j, r[j]? = buf[spec_convert_source p 1 j]? := by
  refine ⟨_, convert_data_group_eq buf p h, by simp, ?_⟩
  intro j
  simp only [List.getElem?_set, List.length_set]
  by_cases hj : p ≤ j ∧ j < p + 8
  · obtain ⟨k, rfl⟩ : ∃ k, j = p + k := ⟨j - p, by omega⟩
    have hk : k < 8 := by omega
    have hsrc : spec_convert_source p 1 (p + k) = p + spec_group_source k := by
      unfold spec_convert_source
      rw [if_pos (by omega)]
      have h1 : (p + k - p) / 8 = 0 := by omega
      have h2 : (p + k - p) % 8 = k := by omega
      rw [h1, h2]
      omega
    rw [hsrc]
    have l1 : p + 1 < buf.length := by omega
    have l2 : p + 2 < buf.length := by omega
    have l3 : p + 3 < buf.length := by omega
    have l4 : p + 4 < buf.length := by omega
    have l5 : p + 5 < buf.length := by omega
    interval_cases k <;>
      simp [spec_group_source, h, l1, l2, l3, l4, l5, List.getElem?_eq_getElem]
  · have hsrc : spec_convert_source p 1 j = j := by
      unfold spec_convert_source
      rw [if_neg (by omega)]
    rw [hsrc]
    have n1 : ¬ p + 1 = j := by omega
    have n2 : ¬ p + 2 = j := by omega
    have n3 : ¬ p + 3 = j := by omega
    have n4 : ¬ p + 4 = j := by omega
    have n5 : ¬ p + 5 = j := by omega
    have n6 : ¬ p + 6 = j := by omega
    simp only [n1, n2, n3, n4, n5, n6, if_false]

theorem spec_convert_source_succ (p n j : Nat) :
    spec_convert_source p 1 (spec_convert_source (p + 8) n j) =
      spec_convert_source p (n + 1) j := by
  by_cases h1 : p + 8 ≤ j ∧ j < p + 8 + 8 * n
  · have hmod : (j - (p + 8)) % 8 = (j - p) % 8 := by omega
    have hdiv : (j - p) / 8 = (j - (p + 8)) / 8 + 1 := by omega
    have e1 : spec_convert_source (p + 8) n j =
        p + 8 + 8 * ((j - (p + 8)) / 8) + spec_group_source ((j - p) % 8) := by
      unfold spec_convert_source
      rw [if_pos h1, hmod]
    have e3 : spec_convert_source p (n + 1) j =
        p + 8 * ((j - (p + 8)) / 8 + 1) + spec_group_source ((j - p) % 8) := by
      unfold spec_convert_source
      rw [if_pos (by omega), hdiv]
    rw [e1, e3]
    generalize spec_group_source ((j - p) % 8) = g
    unfold spec_convert_source
    rw [if_neg (by omega)]
    omega
  · have e1 : spec_convert_source (p + 8) n j = j := by
      unfold spec_convert_source
      rw [if_neg h1]
    rw [e1]
    unfold spec_convert_source
    by_cases h2 : p ≤ j ∧ j < p + 8
    · rw [if_pos (by omega), if_pos (by omega)]
    · rw [if_neg (by omega), if_neg (by omega)]

/-- Every byte after `convert_data`: the groups are reordered one by one, each
inside itself, and the bytes outside them are kept. -/
theorem convert_data_spec (n : Nat) :
    ∀ (buf : List Nat) (p : Nat), p + 8 * n ≤ buf.length →
      ∃ r, convert_data buf p n = some r ∧ r.length = buf.length ∧
        ∀ j, r[j]? = buf[spec_convert_source p n j]? := by
  induction n with
  | zero =>
    intro buf p _
    refine ⟨buf, rfl, rfl, fun j => ?_⟩
    unfold spec_convert_source
    rw [if_neg (by omega)]
  | succ n ih =>
    intro buf p h
    obtain ⟨b1, hb1, hl1, hg1⟩ := convert_data_group_spec buf p (by omega)
    obtain ⟨r, hr, hlr, hgr⟩ := ih b1 (p + 8) (by omega)
    refine ⟨r, ?_, by omega, fun j => ?_⟩
    · unfold convert_data
      rw [hb1]
      exact hr
    · rw [hgr, hg1, spec_convert_source_succ]

theorem spec_group_source_lt (k : Nat) (h : k < 8) : spec_group_source k < 8 := by
  interval_cases k <;> decide

theorem spec_convert_source_group (p n g k : Nat) (hg : g < n) (hk : k < 8) :
    spec_convert_source p n (p + 8 * g + k) = p + 8 * g + spec_group_source k := by
  unfold spec_convert_source
  rw [if_pos (by omega)]
  have h1 : (p + 8 * g + k - p) / 8 = g := by omega
  have h2 : (p + 8 * g + k - p) % 8 = k := by omega
  rw [h1, h2]

/-- C13: `convert_data` is not an involution. On every 8-byte group whose bytes
are pairwise distinct the first application gives `(s0,s4,s1,s5,s2,s6,s3,s7)`,
the second `(s0,s2,s4,s6,s1,s3,s5,s7)`, which is not the original group. -/
theorem convert_data_not_involution (s0 s1 s2 s3 s4 s5 s6 s7 : Nat)
    (hd : [s0, s1, s2, s3, s4, s5, s6, s7].Nodup) :
    ∃ r1 r2, convert_data [s0, s1, s2, s3, s4, s5, s6, s7] 0 1 = some r1 ∧
      convert_data r1 0 1 = some r2 ∧
      r1 = [s0, s4, s1, s5, s2, s6, s3, s7] ∧
      r2 = [s0, s2, s4, s6, s1, s3, s5, s7] ∧
      r2 ≠ [s0, s1, s2, s3, s4, s5, s6, s7] := by
  refine ⟨[s0, s4, s1, s5, s2, s6, s3, s7], [s0, s2, s4, s6, s1, s3, s5, s7], ?_, ?_,
    rfl, rfl, ?_⟩
  · simp [convert_data, convert_data_group]
  · simp [convert_data, convert_data_group]
  · simp only [List.nodup_cons, List.mem_cons, not_or] at hd
    intro heq
    simp only [List.cons.injEq] at heq
    exact hd.2.1.1 heq.2.1.symm

theorem convert_data_not_involution_witness :
    ∃ r1 r2, convert_data [0, 1, 2, 3, 4, 5, 6, 7] 0 1 = some r1 ∧
      convert_data r1 0 1 = some r2 ∧ r2 ≠ [0, 1, 2, 3, 4, 5, 6, 7] :=
  (convert_data_not_involution 0 1 2 3 4 5 6 7 (by decide)).imp
    fun _ h => h.imp fun _ h => ⟨h.1, h.2.1, h.2.2.2.2⟩

/-- C14: for every buffer and every group count `n` with the `n` groups inside
the buffer, `convert_data` returns a buffer of the same length in which byte `k`
of group `g` is byte `spec_group_source k` of the same group of the old buffer,
that is `(s0,s4,s1,s5,s2,s6,s3,s7)`, and every byte outside the `n` groups is
unchanged; `scream_build_payload_locked` keeps the header and, for DSD, applies
this reordering to all 144 groups of the 1152-byte window, and for PCM leaves
the window as copied. -/
theorem convert_data_groups (buf : List Nat) (p n : Nat) (h : p + 8 * n ≤ buf.length) :
    (∃ r, convert_data buf p n = some r ∧ r.length = buf.length ∧
      (∀ g k, g < n → k < 8 → r[p + 8 * g + k]? = buf[p + 8 * g + spec_group_source k]?) ∧
      (∀ j, j < p ∨ p + 8 * n ≤ j → r[j]? = buf[j]?)) ∧
    (∀ (dev : snd_scream_device) (rt : snd_pcm_runtime) (cursor : Nat),
      dev.network_buffer.length = SCREAM_PACKET_SIZE →
      SCREAM_PAYLOAD_SIZE ≤ buf_bytes dev rt →
      buf_bytes dev rt ≤ rt.dma_area.length →
      rt.dma_area.length + SCREAM_PACKET_SIZE ≤ 2 ^ 64 →
      cursor < buf_bytes dev rt →
      ∃ nb, scream_build_payload_locked dev rt cursor =
          some { dev with network_buffer := nb } ∧
        nb.length = SCREAM_PACKET_SIZE ∧
        (∀ j < SCREAM_HEADER_SIZE, nb[j]? = dev.network_buffer[j]?) ∧
        ∀ i < SCREAM_PAYLOAD_SIZE, nb[SCREAM_HEADER_SIZE + i]? =
          rt.dma_area[(cursor + (if dev.is_dsd then 8 * (i / 8) + spec_group_source (i % 8)
            else i)) % buf_bytes dev rt]?) := by
  constructor
  · obtain ⟨r, hr, hl, hg⟩ := convert_data_spec n buf p h
    refine ⟨r, hr, hl, ?_, ?_⟩
    · intro g k hgn hk
      rw [hg, spec_convert_source_group p n g k hgn hk]
    · intro j hj
      rw [hg]
      unfold spec_convert_source
      rw [if_neg (by omega)]
  · intro dev rt cursor hlen hL hdma hmem hc
    obtain ⟨nb0, hl0, hb0, hrun⟩ :=
      build_payload_copy dev rt cursor hlen hdma (le_trans hL hdma) hmem hc
    have hbytes := hb0 hL
    simp only [SCREAM_PACKET_SIZE, SCREAM_PAYLOAD_SIZE, SCREAM_HEADER_SIZE] at *
    cases hd : dev.is_dsd
    · refine ⟨nb0, by rw [hrun, hd]; rfl, hl0, ?_, ?_⟩
      · intro j hj
        rw [hbytes, if_pos hj]
      · intro i hi
        rw [hbytes, if_neg (by omega), if_pos (by omega)]
        simp
    · obtain ⟨r, hr, hl, hg⟩ := convert_data_spec 144 nb0 5 (by omega)
      refine ⟨r, ?_, by omega, ?_, ?_⟩
      · rw [hrun, hd]
        simp only [if_true]
        rw [show 1152 / 8 = 144 from rfl, hr]
      · intro j hj
        rw [hg]
        unfold spec_convert_source
        rw [if_neg (by omega), hbytes, if_pos hj]
      · intro i hi
        have hlt := spec_group_source_lt (i % 8) (Nat.mod_lt _ (by decide))
        have e1 : 5 + i = 5 + 8 * (i / 8) + i % 8 := by omega
        rw [hg, e1, spec_convert_source_group 5 144 (i / 8) (i % 8) (by omega)
          (Nat.mod_lt _ (by decide)), hbytes]
        generalize spec_group_source (i % 8) = s at *
        rw [if_neg (by omega), if_pos (by omega)]
        have e2 : 5 + 8 * (i / 8) + s - 5 = 8 * (i / 8) + s := by omega
        simp [e2]

theorem convert_data_groups_witness :
    ∃ r, convert_data [10, 11, 12, 13, 14, 15, 16, 17, 20, 21, 22, 23, 24, 25, 26, 27, 30]
        0 2 = some r ∧
      r[8 * 1 + 1]? = some 24 ∧ r[16]? = some 30 := by
  obtain ⟨r, hr, -, hg, hrest⟩ := (convert_data_groups
    [10, 11, 12, 13, 14, 15, 16, 17, 20, 21, 22, 23, 24, 25, 26, 27, 30] 0 2 (by decide)).1
  refine ⟨r, hr, ?_, ?_⟩
  · have := hg 1 1 (by decide) (by decide)
    simpa [spec_group_source] using this
  · have := hrest 16 (Or.inr (by decide))
    simpa using this

/-! ## Pacing period (`snd_scream_pcm_hw_params`) -/

/-- C15: for every sample rate in 44100..1536000 and channel count in 2..8, both
formats taking 4 bytes per sample, `snd_scream_pcm_hw_params` returns and sets
the pacing period to `floor(1152 * 10^9 / (sample_rate * 4 * channels))`
nanoseconds; the product `sample_rate * frame_bytes` is below `2^32` and the
period is below `2^32`, so neither the `u32` cast nor the `unsigned long` cast
truncates; for rate 48000 with 2 channels the period is 3000000 ns. -/
theorem hw_params_period (dev : snd_scream_device) (params : snd_pcm_hw_params)
    (malloc_ret : Int) (hm : 0 ≤ malloc_ret)
    (hr1 : 44100 ≤ params.rate) (hr2 : params.rate ≤ 1536000)
    (hc1 : 2 ≤ params.channels) (hc2 : params.channels ≤ 8) :
    ∃ dev1, snd_scream_pcm_hw_params dev params malloc_ret = some (0, dev1) ∧
      dev1.period_time_ns = 1152 * 10 ^ 9 / (params.rate * 4 * params.channels) ∧
      snd_pcm_format_physical_width params.format / 8 = 4 ∧
      u32 (params.rate * u32 (snd_pcm_format_physical_width params.format / 8 *
        params.channels)) = params.rate * 4 * params.channels ∧
      params.rate * 4 * params.channels < 2 ^ 32 ∧
      dev1.period_time_ns < 2 ^ 32 ∧
      (params.rate = 48000 → params.channels = 2 → dev1.period_time_ns = 3000000) := by
  obtain ⟨-, hdef⟩ := hw_params_defined dev params malloc_ret hm hr1 hr2 (by omega) hc2
  obtain ⟨hp1, -, -⟩ := period_value params.rate params.channels params.format hr1 hr2
    (by omega) hc2
  have hassoc : params.rate * 4 * params.channels = params.rate * (4 * params.channels) :=
    Nat.mul_assoc _ _ _
  have hlo : 44100 * 8 ≤ params.rate * (4 * params.channels) := by nlinarith
  have hhi : params.rate * (4 * params.channels) ≤ 1536000 * 32 := by nlinarith
  have hper : 1152000000000 / (params.rate * (4 * params.channels)) ≤
      1152000000000 / (44100 * 8) := Nat.div_le_div_left hlo (by decide)
  refine ⟨_, hdef, ?_, ?_, ?_, ?_, ?_, ?_⟩
  · show 1152000000000 / (params.rate * (4 * params.channels)) = _
    rw [hassoc]; norm_num
  · cases params.format <;> rfl
  · rw [hp1, hassoc]
  · rw [hassoc]; omega
  · show 1152000000000 / (params.rate * (4 * params.channels)) < _
    have : 1152000000000 / (44100 * 8) < 2 ^ 32 := by norm_num
    omega
  · intro hr hc
    show 1152000000000 / (params.rate * (4 * params.channels)) = _
    rw [hr, hc]

theorem hw_params_period_witness :
    ∃ dev1, snd_scream_pcm_hw_params init_device ⟨48000, 2, .S32_LE, 4608⟩ 0 =
        some (0, dev1) ∧
      dev1.period_time_ns = 3000000 :=
  (hw_params_period init_device ⟨48000, 2, .S32_LE, 4608⟩ 0
    (by decide) (by decide) (by decide) (by decide) (by decide)).imp
    fun _ h => ⟨h.1, h.2.2.2.2.2.2 rfl rfl⟩

/-! ## Cursor alignment (`scream_timer_callback`, `scream_build_payload_locked`) -/

/-- The cursor after one tick: left alone, or moved on by one payload quantum
modulo the buffer length. -/
theorem timer_tick_hw_ptr_value (dev dev1 : snd_scream_device) (rt : snd_pcm_runtime)
    (hw_avail : Int) (r : hrtimer_restart) (evs : List Event)
    (h : scream_timer_callback dev rt hw_avail = some (r, dev1, evs))
    (hL : 0 < buf_bytes dev rt) :
    dev1.hw_ptr = dev.hw_ptr ∨
      dev1.hw_ptr = usize (dev.hw_ptr + SCREAM_PAYLOAD_SIZE) % buf_bytes dev rt := by
  cases hrun : dev.is_running
  · rw [timer_tick_stopped dev rt hw_avail hrun] at h
    simp only [Option.some.injEq, Prod.mk.injEq] at h
    rw [← h.2.1]
    exact Or.inl rfl
  · cases hsub : dev.substream
    · rw [timer_tick_none dev rt hw_avail hrun (Or.inl hsub)] at h
      exact absurd h (by simp)
    · by_cases hcond : s64 ((if hw_avail < 0 then 0 else hw_avail) * 4 * dev.channels) ≥
          SCREAM_PAYLOAD_SIZE
      · cases hb : scream_build_payload_locked dev rt dev.hw_ptr with
        | none =>
          rw [timer_tick_none dev rt hw_avail hrun (Or.inr ⟨hcond, hb⟩)] at h
          exact absurd h (by simp)
        | some d =>
          rw [timer_tick_send_eq dev d rt hw_avail hrun hsub hcond hb (by omega)] at h
          simp only [Option.some.injEq, Prod.mk.injEq] at h
          rw [← h.2.1]
          refine Or.inr ?_
          rw [build_payload_fields dev d rt dev.hw_ptr hb]
      · rw [timer_tick_idle_eq dev rt hw_avail hrun hsub hcond] at h
        simp only [Option.some.injEq, Prod.mk.injEq] at h
        rw [← h.2.1]
        exact Or.inl rfl

/-- A cursor that is a multiple of 1152 inside a buffer whose length is one too
leaves room for a whole payload, and stays such a multiple when moved on. -/
theorem aligned_step (L c : Nat) (hL64 : L < 2 ^ 64) (hdiv : SCREAM_PAYLOAD_SIZE ∣ L)
    (hc : SCREAM_PAYLOAD_SIZE ∣ c) (hlt : c < L) :
    c + SCREAM_PAYLOAD_SIZE ≤ L ∧
      SCREAM_PAYLOAD_SIZE ∣ usize (c + SCREAM_PAYLOAD_SIZE) % L := by
  obtain ⟨a, rfl⟩ := hdiv
  obtain ⟨b, rfl⟩ := hc
  simp only [SCREAM_PAYLOAD_SIZE] at *
  have hle : 1152 * b + 1152 ≤ 1152 * a := by omega
  refine ⟨hle, ?_⟩
  have hu : usize (1152 * b + 1152) = 1152 * (b + 1) := by unfold usize; omega
  rw [hu]
  exact (Nat.dvd_mod_iff (Dvd.intro _ rfl)).2 (Dvd.intro _ rfl)

/-- The alignment invariant along a run of ticks that returns. -/
theorem timer_ticks_aligned (L : Nat) (hL : 0 < L) (hdiv : SCREAM_PAYLOAD_SIZE ∣ L)
    (ticks : List (snd_pcm_runtime × Int)) :
    ∀ dev dev1 : snd_scream_device, (∀ t ∈ ticks, buf_bytes dev t.1 = L) →
      SCREAM_PAYLOAD_SIZE ∣ dev.hw_ptr → dev.hw_ptr < L →
      timer_ticks dev ticks = some dev1 →
      SCREAM_PAYLOAD_SIZE ∣ dev1.hw_ptr ∧ dev1.hw_ptr < L ∧ dev1.channels = dev.channels := by
  induction ticks with
  | nil =>
    intro dev dev1 _ hc hlt h
    simp only [timer_ticks, Option.some.injEq] at h
    rw [← h]; exact ⟨hc, hlt, rfl⟩
  | cons t ticks ih =>
    intro dev dev1 hfix hc hlt h
    obtain ⟨rt, a⟩ := t
    have hLt : buf_bytes dev rt = L := hfix (rt, a) (List.mem_cons_self _ _)
    have hL64 : L < 2 ^ 64 := by
      rw [← hLt]; unfold buf_bytes usize; exact Nat.mod_lt _ (by norm_num)
    simp only [timer_ticks] at h
    cases hstep : scream_timer_callback dev rt a with
    | none => rw [hstep] at h; exact absurd h (by simp)
    | some res =>
      obtain ⟨r, d, evs⟩ := res
      rw [hstep] at h
      obtain ⟨hd, hch⟩ := timer_tick_hw_ptr dev d rt a r evs hstep (by omega) (by omega)
      have hval := timer_tick_hw_ptr_value dev d rt a r evs hstep (by omega)
      have hdd : SCREAM_PAYLOAD_SIZE ∣ d.hw_ptr := by
        rcases hval with hv | hv
        · rw [hv]; exact hc
        · rw [hv, hLt]; exact (aligned_step L dev.hw_ptr hL64 hdiv hc hlt).2
      obtain ⟨i1, i2, i3⟩ := ih d dev1
        (fun t ht => by
          have := hfix t (List.mem_cons_of_mem _ ht)
          unfold buf_bytes at this ⊢
          rw [hch]; exact this)
        hdd (by omega) h
      exact ⟨i1, i2, by rw [i3, hch]⟩

/-- With room for a whole payload after the cursor, `scream_build_payload_locked`
is the single contiguous copy: the two-segment branch is not taken. -/
theorem build_payload_no_wrap (dev : snd_scream_device) (rt : snd_pcm_runtime)
    (cursor : Nat) (h : ¬ usize (cursor + SCREAM_PAYLOAD_SIZE) > buf_bytes dev rt) :
    scream_build_payload_locked dev rt cursor =
      match memcpy dev.network_buffer SCREAM_HEADER_SIZE rt.dma_area cursor
        SCREAM_PAYLOAD_SIZE with
      | none => none
      | some nb =>
        if dev.is_dsd then
          match convert_data nb SCREAM_HEADER_SIZE (SCREAM_PAYLOAD_SIZE / 8) with
          | none => none
          | some nb1 => some { dev with network_buffer := nb1 }
        else some { dev with network_buffer := nb } := by
  unfold buf_bytes at h
  unfold scream_build_payload_locked
  simp only [h, if_false]

/-- C16: when the buffer length `L` is a positive multiple of 1152, then after
`snd_scream_pcm_prepare` and any sequence of `scream_timer_callback` ticks that
returns, the cursor `hw_ptr` is a multiple of 1152 and `hw_ptr + 1152 <= L`, so
the condition of the two-segment branch of `scream_build_payload_locked` is
false at that cursor and the function is the single contiguous copy; the run of
ticks does return whenever the buffers lie in memory. -/
theorem hw_ptr_aligned (dev : snd_scream_device) (rt0 : snd_pcm_runtime)
    (ticks : List (snd_pcm_runtime × Int)) (L : Nat) (hL : 0 < L)
    (hdiv : SCREAM_PAYLOAD_SIZE ∣ L)
    (hfix : ∀ t ∈ ticks, buf_bytes dev t.1 = L) :
    (∀ dev1, timer_ticks (snd_scream_pcm_prepare dev rt0).2.1 ticks = some dev1 →
      SCREAM_PAYLOAD_SIZE ∣ dev1.hw_ptr ∧ dev1.hw_ptr + SCREAM_PAYLOAD_SIZE ≤ L ∧
      ∀ rt, buf_bytes dev1 rt = L →
        ¬ usize (dev1.hw_ptr + SCREAM_PAYLOAD_SIZE) > buf_bytes dev1 rt ∧
        scream_build_payload_locked dev1 rt dev1.hw_ptr =
          match memcpy dev1.network_buffer SCREAM_HEADER_SIZE rt.dma_area dev1.hw_ptr
            SCREAM_PAYLOAD_SIZE with
          | none => none
          | some nb =>
            if dev1.is_dsd then
              match convert_data nb SCREAM_HEADER_SIZE (SCREAM_PAYLOAD_SIZE / 8) with
              | none => none
              | some nb1 => some { dev1 with network_buffer := nb1 }
            else some { dev1 with network_buffer := nb }) ∧
    (dev.network_buffer.length = SCREAM_PACKET_SIZE →
      (dev.is_running = true → dev.substream = true) →
      (∀ t ∈ ticks, buffer_in_memory dev t.1) →
      ∃ dev1, timer_ticks (snd_scream_pcm_prepare dev rt0).2.1 ticks = some dev1) := by
  have hprep : (snd_scream_pcm_prepare dev rt0).2.1 = { dev with hw_ptr := 0 } := rfl
  have hfix0 : ∀ t ∈ ticks, buf_bytes { dev with hw_ptr := 0 } t.1 = L := hfix
  rw [hprep]
  constructor
  · intro dev1 hrun
    obtain ⟨h1, h2, -⟩ := timer_ticks_aligned L hL hdiv ticks _ dev1 hfix0
      (Dvd.intro_left 0 rfl) hL hrun
    have hroom : dev1.hw_ptr + SCREAM_PAYLOAD_SIZE ≤ L := by
      obtain ⟨a, ha⟩ := hdiv
      obtain ⟨b, hb⟩ := h1
      simp only [SCREAM_PAYLOAD_SIZE] at *
      omega
    refine ⟨h1, hroom, fun rt hrt => ?_⟩
    have hno : ¬ usize (dev1.hw_ptr + SCREAM_PAYLOAD_SIZE) > buf_bytes dev1 rt := by
      rw [hrt]
      have : usize (dev1.hw_ptr + SCREAM_PAYLOAD_SIZE) ≤ dev1.hw_ptr + SCREAM_PAYLOAD_SIZE :=
        Nat.mod_le _ _
      omega
    exact ⟨hno, build_payload_no_wrap dev1 rt dev1.hw_ptr hno⟩
  · intro hlen hsub hmem
    exact timer_ticks_defined L ticks { dev with hw_ptr := 0 } hfix0 hmem hlen hsub hL

theorem hw_ptr_aligned_witness :
    ∃ dev1, timer_ticks (snd_scream_pcm_prepare
        { init_device with channels := 2, is_running := true, substream := true, hw_ptr := 9 }
        ⟨288, 144, 0, 0, []⟩).2.1
        [(⟨288, 144, 0, 0, List.replicate 2304 7⟩, 144),
          (⟨288, 144, 0, 0, List.replicate 2304 9⟩, 288)] = some dev1 ∧
      SCREAM_PAYLOAD_SIZE ∣ dev1.hw_ptr ∧ dev1.hw_ptr + SCREAM_PAYLOAD_SIZE ≤ 2304 :=
  have h := hw_ptr_aligned
    { init_device with channels := 2, is_running := true, substream := true, hw_ptr := 9 }
    ⟨288, 144, 0, 0, []⟩
    [(⟨288, 144, 0, 0, List.replicate 2304 7⟩, 144),
      (⟨288, 144, 0, 0, List.replicate 2304 9⟩, 288)] 2304 (by decide)
    (Dvd.intro 2 rfl) (by simp [buf_bytes, usize])
  (h.2 (by simp [init_device]) (fun _ => rfl)
    (by simp [buffer_in_memory, buf_bytes, usize, SCREAM_PAYLOAD_SIZE, SCREAM_PACKET_SIZE,
      SCREAM_HEADER_SIZE])).imp
    fun d hd => ⟨hd, (h.1 d hd).1, (h.1 d hd).2.1⟩

end ScreamALSA
